import Mathlib

/-!
A verification development for the Motia infrastructure-configuration
validator: the proportional-CPU resolver and the zod-based
`validateInfrastructureConfig` pipeline, embedded shallowly in Lean.
JavaScript numbers are modelled as exact rationals.
-/

set_option maxHeartbeats 1000000

/-- The `AWS_LAMBDA_CPU_RATIO` calibration table, in ascending RAM order
(values written as exact fractions: 1/16 = 0.0625, ..., 9/2 = 4.5). -/
def AWS_LAMBDA_CPU_RATIO : List (ℚ × ℚ) :=
  [(128, 1/16), (256, 1/8), (512, 1/4), (1024, 1/2), (1536, 3/4),
   (2048, 1), (3008, 3/2), (4096, 2), (5120, 5/2), (6144, 3),
   (7168, 7/2), (8192, 4), (9216, 9/2), (10240, 5)]

/-- Exact-key lookup, modelling the `AWS_LAMBDA_CPU_RATIO[ramMb]` access. -/
def lookupRatio (ram : ℚ) : List (ℚ × ℚ) → Option ℚ
  | [] => none
  | (k, v) :: rest => if ram = k then some v else lookupRatio ram rest

/-- The bracketing scan of `getProportionalCpu`: walks adjacent pairs of the
table and linearly interpolates on the first open interval containing `ram`. -/
def interpolate (ram : ℚ) : List (ℚ × ℚ) → Option ℚ
  | (l, lc) :: (u, uc) :: rest =>
    if l < ram ∧ ram < u then
      some (lc + (uc - lc) * ((ram - l) / (u - l)))
    else interpolate ram ((u, uc) :: rest)
  | _ => none

/-- `getProportionalCpu(ramMb)`: exact table hit, else linear interpolation
between the bracketing calibration points, else clamp to the first table
entry (128 → 1/16) below and the last (10240 → 5) above. -/
def getProportionalCpu (ramMb : ℚ) : ℚ :=
  match lookupRatio ramMb AWS_LAMBDA_CPU_RATIO with
  | some exact => exact
  | none =>
    match interpolate ramMb AWS_LAMBDA_CPU_RATIO with
    | some cpu => cpu
    | none => if ramMb ≤ 128 then 1/16 else 5

theorem lookup_eq_none (ram : ℚ) (l : List (ℚ × ℚ)) (h : ∀ p ∈ l, ram ≠ p.1) :
    lookupRatio ram l = none := by
  induction l with
  | nil => rfl
  | cons p rest ih =>
    simp only [lookupRatio]
    rw [if_neg (h p (List.mem_cons_self p rest))]
    exact ih fun q hq => h q (List.mem_cons_of_mem p hq)

theorem getCpu_table : ∀ p ∈ AWS_LAMBDA_CPU_RATIO, getProportionalCpu p.1 = p.2 := by
  intro p hp
  fin_cases hp <;>
    norm_num [getProportionalCpu, lookupRatio, AWS_LAMBDA_CPU_RATIO]

theorem getCpu_between_1 (r : ℚ) (h1 : 128 < r) (h2 : r < 256) :
    getProportionalCpu r = 1/16 + (1/8 - 1/16) * ((r - 128) / (256 - 128)) := by
  have hn : lookupRatio r AWS_LAMBDA_CPU_RATIO = none := by
    apply lookup_eq_none
    intro p hp
    fin_cases hp <;> intro he <;> rw [he] at h1 h2 <;> norm_num at h1 h2
  have hi : interpolate r AWS_LAMBDA_CPU_RATIO =
      some (1/16 + (1/8 - 1/16) * ((r - 128) / (256 - 128))) := by
    simp only [ AWS_LAMBDA_CPU_RATIO, interpolate]
    rw [if_pos ⟨h1, h2⟩]
  simp [getProportionalCpu, hn, hi]

theorem getCpu_between_2 (r : ℚ) (h1 : 256 < r) (h2 : r < 512) :
    getProportionalCpu r = 1/8 + (1/4 - 1/8) * ((r - 256) / (512 - 256)) := by
  have hn : lookupRatio r AWS_LAMBDA_CPU_RATIO = none := by
    apply lookup_eq_none
    intro p hp
    fin_cases hp <;> intro he <;> rw [he] at h1 h2 <;> norm_num at h1 h2
  have hi : interpolate r AWS_LAMBDA_CPU_RATIO =
      some (1/8 + (1/4 - 1/8) * ((r - 256) / (512 - 256))) := by
    simp only [ AWS_LAMBDA_CPU_RATIO, interpolate]
    rw [if_neg (show ¬((128:ℚ) < r ∧ r < 256) from fun hc => absurd hc.2 (by linarith))]
    rw [if_pos ⟨h1, h2⟩]
  simp [getProportionalCpu, hn, hi]

theorem getCpu_between_3 (r : ℚ) (h1 : 512 < r) (h2 : r < 1024) :
    getProportionalCpu r = 1/4 + (1/2 - 1/4) * ((r - 512) / (1024 - 512)) := by
  have hn : lookupRatio r AWS_LAMBDA_CPU_RATIO = none := by
    apply lookup_eq_none
    intro p hp
    fin_cases hp <;> intro he <;> rw [he] at h1 h2 <;> norm_num at h1 h2
  have hi : interpolate r AWS_LAMBDA_CPU_RATIO =
      some (1/4 + (1/2 - 1/4) * ((r - 512) / (1024 - 512))) := by
    simp only [ AWS_LAMBDA_CPU_RATIO, interpolate]
    rw [if_neg (show ¬((128:ℚ) < r ∧ r < 256) from fun hc => absurd hc.2 (by linarith))]
    rw [if_neg (show ¬((256:ℚ) < r ∧ r < 512) from fun hc => absurd hc.2 (by linarith))]
    rw [if_pos ⟨h1, h2⟩]
  simp [getProportionalCpu, hn, hi]

theorem getCpu_between_4 (r : ℚ) (h1 : 1024 < r) (h2 : r < 1536) :
    getProportionalCpu r = 1/2 + (3/4 - 1/2) * ((r - 1024) / (1536 - 1024)) := by
  have hn : lookupRatio r AWS_LAMBDA_CPU_RATIO = none := by
    apply lookup_eq_none
    intro p hp
    fin_cases hp <;> intro he <;> rw [he] at h1 h2 <;> norm_num at h1 h2
  have hi : interpolate r AWS_LAMBDA_CPU_RATIO =
      some (1/2 + (3/4 - 1/2) * ((r - 1024) / (1536 - 1024))) := by
    simp only [ AWS_LAMBDA_CPU_RATIO, interpolate]
    rw [if_neg (show ¬((128:ℚ) < r ∧ r < 256) from fun hc => absurd hc.2 (by linarith))]
    rw [if_neg (show ¬((256:ℚ) < r ∧ r < 512) from fun hc => absurd hc.2 (by linarith))]
    rw [if_neg (show ¬((512:ℚ) < r ∧ r < 1024) from fun hc => absurd hc.2 (by linarith))]
    rw [if_pos ⟨h1, h2⟩]
  simp [getProportionalCpu, hn, hi]

theorem getCpu_between_5 (r : ℚ) (h1 : 1536 < r) (h2 : r < 2048) :
    getProportionalCpu r = 3/4 + (1 - 3/4) * ((r - 1536) / (2048 - 1536)) := by
  have hn : lookupRatio r AWS_LAMBDA_CPU_RATIO = none := by
    apply lookup_eq_none
    intro p hp
    fin_cases hp <;> intro he <;> rw [he] at h1 h2 <;> norm_num at h1 h2
  have hi : interpolate r AWS_LAMBDA_CPU_RATIO =
      some (3/4 + (1 - 3/4) * ((r - 1536) / (2048 - 1536))) := by
    simp only [ AWS_LAMBDA_CPU_RATIO, interpolate]
    rw [if_neg (show ¬((128:ℚ) < r ∧ r < 256) from fun hc => absurd hc.2 (by linarith))]
    rw [if_neg (show ¬((256:ℚ) < r ∧ r < 512) from fun hc => absurd hc.2 (by linarith))]
    rw [if_neg (show ¬((512:ℚ) < r ∧ r < 1024) from fun hc => absurd hc.2 (by linarith))]
    rw [if_neg (show ¬((1024:ℚ) < r ∧ r < 1536) from fun hc => absurd hc.2 (by linarith))]
    rw [if_pos ⟨h1, h2⟩]
  simp [getProportionalCpu, hn, hi]

theorem getCpu_between_6 (r : ℚ) (h1 : 2048 < r) (h2 : r < 3008) :
    getProportionalCpu r = 1 + (3/2 - 1) * ((r - 2048) / (3008 - 2048)) := by
  have hn : lookupRatio r AWS_LAMBDA_CPU_RATIO = none := by
    apply lookup_eq_none
    intro p hp
    fin_cases hp <;> intro he <;> rw [he] at h1 h2 <;> norm_num at h1 h2
  have hi : interpolate r AWS_LAMBDA_CPU_RATIO =
      some (1 + (3/2 - 1) * ((r - 2048) / (3008 - 2048))) := by
    simp only [ AWS_LAMBDA_CPU_RATIO, interpolate]
    rw [if_neg (show ¬((128:ℚ) < r ∧ r < 256) from fun hc => absurd hc.2 (by linarith))]
    rw [if_neg (show ¬((256:ℚ) < r ∧ r < 512) from fun hc => absurd hc.2 (by linarith))]
    rw [if_neg (show ¬((512:ℚ) < r ∧ r < 1024) from fun hc => absurd hc.2 (by linarith))]
    rw [if_neg (show ¬((1024:ℚ) < r ∧ r < 1536) from fun hc => absurd hc.2 (by linarith))]
    rw [if_neg (show ¬((1536:ℚ) < r ∧ r < 2048) from fun hc => absurd hc.2 (by linarith))]
    rw [if_pos ⟨h1, h2⟩]
  simp [getProportionalCpu, hn, hi]

theorem getCpu_between_7 (r : ℚ) (h1 : 3008 < r) (h2 : r < 4096) :
    getProportionalCpu r = 3/2 + (2 - 3/2) * ((r - 3008) / (4096 - 3008)) := by
  have hn : lookupRatio r AWS_LAMBDA_CPU_RATIO = none := by
    apply lookup_eq_none
    intro p hp
    fin_cases hp <;> intro he <;> rw [he] at h1 h2 <;> norm_num at h1 h2
  have hi : interpolate r AWS_LAMBDA_CPU_RATIO =
      some (3/2 + (2 - 3/2) * ((r - 3008) / (4096 - 3008))) := by
    simp only [ AWS_LAMBDA_CPU_RATIO, interpolate]
    rw [if_neg (show ¬((128:ℚ) < r ∧ r < 256) from fun hc => absurd hc.2 (by linarith))]
    rw [if_neg (show ¬((256:ℚ) < r ∧ r < 512) from fun hc => absurd hc.2 (by linarith))]
    rw [if_neg (show ¬((512:ℚ) < r ∧ r < 1024) from fun hc => absurd hc.2 (by linarith))]
    rw [if_neg (show ¬((1024:ℚ) < r ∧ r < 1536) from fun hc => absurd hc.2 (by linarith))]
    rw [if_neg (show ¬((1536:ℚ) < r ∧ r < 2048) from fun hc => absurd hc.2 (by linarith))]
    rw [if_neg (show ¬((2048:ℚ) < r ∧ r < 3008) from fun hc => absurd hc.2 (by linarith))]
    rw [if_pos ⟨h1, h2⟩]
  simp [getProportionalCpu, hn, hi]

theorem getCpu_between_8 (r : ℚ) (h1 : 4096 < r) (h2 : r < 5120) :
    getProportionalCpu r = 2 + (5/2 - 2) * ((r - 4096) / (5120 - 4096)) := by
  have hn : lookupRatio r AWS_LAMBDA_CPU_RATIO = none := by
    apply lookup_eq_none
    intro p hp
    fin_cases hp <;> intro he <;> rw [he] at h1 h2 <;> norm_num at h1 h2
  have hi : interpolate r AWS_LAMBDA_CPU_RATIO =
      some (2 + (5/2 - 2) * ((r - 4096) / (5120 - 4096))) := by
    simp only [ AWS_LAMBDA_CPU_RATIO, interpolate]
    rw [if_neg (show ¬((128:ℚ) < r ∧ r < 256) from fun hc => absurd hc.2 (by linarith))]
    rw [if_neg (show ¬((256:ℚ) < r ∧ r < 512) from fun hc => absurd hc.2 (by linarith))]
    rw [if_neg (show ¬((512:ℚ) < r ∧ r < 1024) from fun hc => absurd hc.2 (by linarith))]
    rw [if_neg (show ¬((1024:ℚ) < r ∧ r < 1536) from fun hc => absurd hc.2 (by linarith))]
    rw [if_neg (show ¬((1536:ℚ) < r ∧ r < 2048) from fun hc => absurd hc.2 (by linarith))]
    rw [if_neg (show ¬((2048:ℚ) < r ∧ r < 3008) from fun hc => absurd hc.2 (by linarith))]
    rw [if_neg (show ¬((3008:ℚ) < r ∧ r < 4096) from fun hc => absurd hc.2 (by linarith))]
    rw [if_pos ⟨h1, h2⟩]
  simp [getProportionalCpu, hn, hi]

theorem getCpu_between_9 (r : ℚ) (h1 : 5120 < r) (h2 : r < 6144) :
    getProportionalCpu r = 5/2 + (3 - 5/2) * ((r - 5120) / (6144 - 5120)) := by
  have hn : lookupRatio r AWS_LAMBDA_CPU_RATIO = none := by
    apply lookup_eq_none
    intro p hp
    fin_cases hp <;> intro he <;> rw [he] at h1 h2 <;> norm_num at h1 h2
  have hi : interpolate r AWS_LAMBDA_CPU_RATIO =
      some (5/2 + (3 - 5/2) * ((r - 5120) / (6144 - 5120))) := by
    simp only [ AWS_LAMBDA_CPU_RATIO, interpolate]
    rw [if_neg (show ¬((128:ℚ) < r ∧ r < 256) from fun hc => absurd hc.2 (by linarith))]
    rw [if_neg (show ¬((256:ℚ) < r ∧ r < 512) from fun hc => absurd hc.2 (by linarith))]
    rw [if_neg (show ¬((512:ℚ) < r ∧ r < 1024) from fun hc => absurd hc.2 (by linarith))]
    rw [if_neg (show ¬((1024:ℚ) < r ∧ r < 1536) from fun hc => absurd hc.2 (by linarith))]
    rw [if_neg (show ¬((1536:ℚ) < r ∧ r < 2048) from fun hc => absurd hc.2 (by linarith))]
    rw [if_neg (show ¬((2048:ℚ) < r ∧ r < 3008) from fun hc => absurd hc.2 (by linarith))]
    rw [if_neg (show ¬((3008:ℚ) < r ∧ r < 4096) from fun hc => absurd hc.2 (by linarith))]
    rw [if_neg (show ¬((4096:ℚ) < r ∧ r < 5120) from fun hc => absurd hc.2 (by linarith))]
    rw [if_pos ⟨h1, h2⟩]
  simp [getProportionalCpu, hn, hi]

theorem getCpu_between_10 (r : ℚ) (h1 : 6144 < r) (h2 : r < 7168) :
    getProportionalCpu r = 3 + (7/2 - 3) * ((r - 6144) / (7168 - 6144)) := by
  have hn : lookupRatio r AWS_LAMBDA_CPU_RATIO = none := by
    apply lookup_eq_none
    intro p hp
    fin_cases hp <;> intro he <;> rw [he] at h1 h2 <;> norm_num at h1 h2
  have hi : interpolate r AWS_LAMBDA_CPU_RATIO =
      some (3 + (7/2 - 3) * ((r - 6144) / (7168 - 6144))) := by
    simp only [ AWS_LAMBDA_CPU_RATIO, interpolate]
    rw [if_neg (show ¬((128:ℚ) < r ∧ r < 256) from fun hc => absurd hc.2 (by linarith))]
    rw [if_neg (show ¬((256:ℚ) < r ∧ r < 512) from fun hc => absurd hc.2 (by linarith))]
    rw [if_neg (show ¬((512:ℚ) < r ∧ r < 1024) from fun hc => absurd hc.2 (by linarith))]
    rw [if_neg (show ¬((1024:ℚ) < r ∧ r < 1536) from fun hc => absurd hc.2 (by linarith))]
    rw [if_neg (show ¬((1536:ℚ) < r ∧ r < 2048) from fun hc => absurd hc.2 (by linarith))]
    rw [if_neg (show ¬((2048:ℚ) < r ∧ r < 3008) from fun hc => absurd hc.2 (by linarith))]
    rw [if_neg (show ¬((3008:ℚ) < r ∧ r < 4096) from fun hc => absurd hc.2 (by linarith))]
    rw [if_neg (show ¬((4096:ℚ) < r ∧ r < 5120) from fun hc => absurd hc.2 (by linarith))]
    rw [if_neg (show ¬((5120:ℚ) < r ∧ r < 6144) from fun hc => absurd hc.2 (by linarith))]
    rw [if_pos ⟨h1, h2⟩]
  simp [getProportionalCpu, hn, hi]

theorem getCpu_between_11 (r : ℚ) (h1 : 7168 < r) (h2 : r < 8192) :
    getProportionalCpu r = 7/2 + (4 - 7/2) * ((r - 7168) / (8192 - 7168)) := by
  have hn : lookupRatio r AWS_LAMBDA_CPU_RATIO = none := by
    apply lookup_eq_none
    intro p hp
    fin_cases hp <;> intro he <;> rw [he] at h1 h2 <;> norm_num at h1 h2
  have hi : interpolate r AWS_LAMBDA_CPU_RATIO =
      some (7/2 + (4 - 7/2) * ((r - 7168) / (8192 - 7168))) := by
    simp only [ AWS_LAMBDA_CPU_RATIO, interpolate]
    rw [if_neg (show ¬((128:ℚ) < r ∧ r < 256) from fun hc => absurd hc.2 (by linarith))]
    rw [if_neg (show ¬((256:ℚ) < r ∧ r < 512) from fun hc => absurd hc.2 (by linarith))]
    rw [if_neg (show ¬((512:ℚ) < r ∧ r < 1024) from fun hc => absurd hc.2 (by linarith))]
    rw [if_neg (show ¬((1024:ℚ) < r ∧ r < 1536) from fun hc => absurd hc.2 (by linarith))]
    rw [if_neg (show ¬((1536:ℚ) < r ∧ r < 2048) from fun hc => absurd hc.2 (by linarith))]
    rw [if_neg (show ¬((2048:ℚ) < r ∧ r < 3008) from fun hc => absurd hc.2 (by linarith))]
    rw [if_neg (show ¬((3008:ℚ) < r ∧ r < 4096) from fun hc => absurd hc.2 (by linarith))]
    rw [if_neg (show ¬((4096:ℚ) < r ∧ r < 5120) from fun hc => absurd hc.2 (by linarith))]
    rw [if_neg (show ¬((5120:ℚ) < r ∧ r < 6144) from fun hc => absurd hc.2 (by linarith))]
    rw [if_neg (show ¬((6144:ℚ) < r ∧ r < 7168) from fun hc => absurd hc.2 (by linarith))]
    rw [if_pos ⟨h1, h2⟩]
  simp [getProportionalCpu, hn, hi]

theorem getCpu_between_12 (r : ℚ) (h1 : 8192 < r) (h2 : r < 9216) :
    getProportionalCpu r = 4 + (9/2 - 4) * ((r - 8192) / (9216 - 8192)) := by
  have hn : lookupRatio r AWS_LAMBDA_CPU_RATIO = none := by
    apply lookup_eq_none
    intro p hp
    fin_cases hp <;> intro he <;> rw [he] at h1 h2 <;> norm_num at h1 h2
  have hi : interpolate r AWS_LAMBDA_CPU_RATIO =
      some (4 + (9/2 - 4) * ((r - 8192) / (9216 - 8192))) := by
    simp only [ AWS_LAMBDA_CPU_RATIO, interpolate]
    rw [if_neg (show ¬((128:ℚ) < r ∧ r < 256) from fun hc => absurd hc.2 (by linarith))]
    rw [if_neg (show ¬((256:ℚ) < r ∧ r < 512) from fun hc => absurd hc.2 (by linarith))]
    rw [if_neg (show ¬((512:ℚ) < r ∧ r < 1024) from fun hc => absurd hc.2 (by linarith))]
    rw [if_neg (show ¬((1024:ℚ) < r ∧ r < 1536) from fun hc => absurd hc.2 (by linarith))]
    rw [if_neg (show ¬((1536:ℚ) < r ∧ r < 2048) from fun hc => absurd hc.2 (by linarith))]
    rw [if_neg (show ¬((2048:ℚ) < r ∧ r < 3008) from fun hc => absurd hc.2 (by linarith))]
    rw [if_neg (show ¬((3008:ℚ) < r ∧ r < 4096) from fun hc => absurd hc.2 (by linarith))]
    rw [if_neg (show ¬((4096:ℚ) < r ∧ r < 5120) from fun hc => absurd hc.2 (by linarith))]
    rw [if_neg (show ¬((5120:ℚ) < r ∧ r < 6144) from fun hc => absurd hc.2 (by linarith))]
    rw [if_neg (show ¬((6144:ℚ) < r ∧ r < 7168) from fun hc => absurd hc.2 (by linarith))]
    rw [if_neg (show ¬((7168:ℚ) < r ∧ r < 8192) from fun hc => absurd hc.2 (by linarith))]
    rw [if_pos ⟨h1, h2⟩]
  simp [getProportionalCpu, hn, hi]

theorem getCpu_between_13 (r : ℚ) (h1 : 9216 < r) (h2 : r < 10240) :
    getProportionalCpu r = 9/2 + (5 - 9/2) * ((r - 9216) / (10240 - 9216)) := by
  have hn : lookupRatio r AWS_LAMBDA_CPU_RATIO = none := by
    apply lookup_eq_none
    intro p hp
    fin_cases hp <;> intro he <;> rw [he] at h1 h2 <;> norm_num at h1 h2
  have hi : interpolate r AWS_LAMBDA_CPU_RATIO =
      some (9/2 + (5 - 9/2) * ((r - 9216) / (10240 - 9216))) := by
    simp only [ AWS_LAMBDA_CPU_RATIO, interpolate]
    rw [if_neg (show ¬((128:ℚ) < r ∧ r < 256) from fun hc => absurd hc.2 (by linarith))]
    rw [if_neg (show ¬((256:ℚ) < r ∧ r < 512) from fun hc => absurd hc.2 (by linarith))]
    rw [if_neg (show ¬((512:ℚ) < r ∧ r < 1024) from fun hc => absurd hc.2 (by linarith))]
    rw [if_neg (show ¬((1024:ℚ) < r ∧ r < 1536) from fun hc => absurd hc.2 (by linarith))]
    rw [if_neg (show ¬((1536:ℚ) < r ∧ r < 2048) from fun hc => absurd hc.2 (by linarith))]
    rw [if_neg (show ¬((2048:ℚ) < r ∧ r < 3008) from fun hc => absurd hc.2 (by linarith))]
    rw [if_neg (show ¬((3008:ℚ) < r ∧ r < 4096) from fun hc => absurd hc.2 (by linarith))]
    rw [if_neg (show ¬((4096:ℚ) < r ∧ r < 5120) from fun hc => absurd hc.2 (by linarith))]
    rw [if_neg (show ¬((5120:ℚ) < r ∧ r < 6144) from fun hc => absurd hc.2 (by linarith))]
    rw [if_neg (show ¬((6144:ℚ) < r ∧ r < 7168) from fun hc => absurd hc.2 (by linarith))]
    rw [if_neg (show ¬((7168:ℚ) < r ∧ r < 8192) from fun hc => absurd hc.2 (by linarith))]
    rw [if_neg (show ¬((8192:ℚ) < r ∧ r < 9216) from fun hc => absurd hc.2 (by linarith))]
    rw [if_pos ⟨h1, h2⟩]
  simp [getProportionalCpu, hn, hi]

theorem getCpu_low (r : ℚ) (h : r ≤ 128) : getProportionalCpu r = 1/16 := by
  rcases eq_or_lt_of_le h with he | hlt
  · rw [he]
    exact getCpu_table (128, 1/16) (by norm_num [ AWS_LAMBDA_CPU_RATIO])
  · have hn : lookupRatio r AWS_LAMBDA_CPU_RATIO = none := by
      apply lookup_eq_none
      intro p hp
      fin_cases hp <;> intro he <;> rw [he] at hlt <;> norm_num at hlt
    have hi : interpolate r AWS_LAMBDA_CPU_RATIO = none := by
      simp only [ AWS_LAMBDA_CPU_RATIO, interpolate]
      rw [if_neg (show ¬((128:ℚ) < r ∧ r < 256) from fun hc => absurd hc.1 (by linarith))]
      rw [if_neg (show ¬((256:ℚ) < r ∧ r < 512) from fun hc => absurd hc.1 (by linarith))]
      rw [if_neg (show ¬((512:ℚ) < r ∧ r < 1024) from fun hc => absurd hc.1 (by linarith))]
      rw [if_neg (show ¬((1024:ℚ) < r ∧ r < 1536) from fun hc => absurd hc.1 (by linarith))]
      rw [if_neg (show ¬((1536:ℚ) < r ∧ r < 2048) from fun hc => absurd hc.1 (by linarith))]
      rw [if_neg (show ¬((2048:ℚ) < r ∧ r < 3008) from fun hc => absurd hc.1 (by linarith))]
      rw [if_neg (show ¬((3008:ℚ) < r ∧ r < 4096) from fun hc => absurd hc.1 (by linarith))]
      rw [if_neg (show ¬((4096:ℚ) < r ∧ r < 5120) from fun hc => absurd hc.1 (by linarith))]
      rw [if_neg (show ¬((5120:ℚ) < r ∧ r < 6144) from fun hc => absurd hc.1 (by linarith))]
      rw [if_neg (show ¬((6144:ℚ) < r ∧ r < 7168) from fun hc => absurd hc.1 (by linarith))]
      rw [if_neg (show ¬((7168:ℚ) < r ∧ r < 8192) from fun hc => absurd hc.1 (by linarith))]
      rw [if_neg (show ¬((8192:ℚ) < r ∧ r < 9216) from fun hc => absurd hc.1 (by linarith))]
      rw [if_neg (show ¬((9216:ℚ) < r ∧ r < 10240) from fun hc => absurd hc.1 (by linarith))]
    simp [getProportionalCpu, hn, hi, h]

theorem getCpu_high (r : ℚ) (h : 10240 ≤ r) : getProportionalCpu r = 5 := by
  rcases eq_or_lt_of_le h with he | hlt
  · rw [← he]
    exact getCpu_table (10240, 5) (by norm_num [ AWS_LAMBDA_CPU_RATIO])
  · have hn : lookupRatio r AWS_LAMBDA_CPU_RATIO = none := by
      apply lookup_eq_none
      intro p hp
      fin_cases hp <;> intro he <;> rw [he] at hlt <;> norm_num at hlt
    have hi : interpolate r AWS_LAMBDA_CPU_RATIO = none := by
      simp only [ AWS_LAMBDA_CPU_RATIO, interpolate]
      rw [if_neg (show ¬((128:ℚ) < r ∧ r < 256) from fun hc => absurd hc.2 (by linarith))]
      rw [if_neg (show ¬((256:ℚ) < r ∧ r < 512) from fun hc => absurd hc.2 (by linarith))]
      rw [if_neg (show ¬((512:ℚ) < r ∧ r < 1024) from fun hc => absurd hc.2 (by linarith))]
      rw [if_neg (show ¬((1024:ℚ) < r ∧ r < 1536) from fun hc => absurd hc.2 (by linarith))]
      rw [if_neg (show ¬((1536:ℚ) < r ∧ r < 2048) from fun hc => absurd hc.2 (by linarith))]
      rw [if_neg (show ¬((2048:ℚ) < r ∧ r < 3008) from fun hc => absurd hc.2 (by linarith))]
      rw [if_neg (show ¬((3008:ℚ) < r ∧ r < 4096) from fun hc => absurd hc.2 (by linarith))]
      rw [if_neg (show ¬((4096:ℚ) < r ∧ r < 5120) from fun hc => absurd hc.2 (by linarith))]
      rw [if_neg (show ¬((5120:ℚ) < r ∧ r < 6144) from fun hc => absurd hc.2 (by linarith))]
      rw [if_neg (show ¬((6144:ℚ) < r ∧ r < 7168) from fun hc => absurd hc.2 (by linarith))]
      rw [if_neg (show ¬((7168:ℚ) < r ∧ r < 8192) from fun hc => absurd hc.2 (by linarith))]
      rw [if_neg (show ¬((8192:ℚ) < r ∧ r < 9216) from fun hc => absurd hc.2 (by linarith))]
      rw [if_neg (show ¬((9216:ℚ) < r ∧ r < 10240) from fun hc => absurd hc.2 (by linarith))]
    have hr : ¬(r ≤ 128) := by linarith
    simp [getProportionalCpu, hn, hi, hr]

/-- One linear piece of the interpolation, as a closed form. -/
def piece (lo hi lc uc r : ℚ) : ℚ := lc + (uc - lc) * ((r - lo) / (hi - lo))

/-- Closed-form piecewise restatement of `getProportionalCpu`, used to
prove monotonicity; proved equal to the source function below. -/
def gSpec (r : ℚ) : ℚ :=
  if r ≤ 128 then 1/16
  else if r ≤ 256 then piece 128 256 (1/16) (1/8) r
  else if r ≤ 512 then piece 256 512 (1/8) (1/4) r
  else if r ≤ 1024 then piece 512 1024 (1/4) (1/2) r
  else if r ≤ 1536 then piece 1024 1536 (1/2) (3/4) r
  else if r ≤ 2048 then piece 1536 2048 (3/4) (1) r
  else if r ≤ 3008 then piece 2048 3008 (1) (3/2) r
  else if r ≤ 4096 then piece 3008 4096 (3/2) (2) r
  else if r ≤ 5120 then piece 4096 5120 (2) (5/2) r
  else if r ≤ 6144 then piece 5120 6144 (5/2) (3) r
  else if r ≤ 7168 then piece 6144 7168 (3) (7/2) r
  else if r ≤ 8192 then piece 7168 8192 (7/2) (4) r
  else if r ≤ 9216 then piece 8192 9216 (4) (9/2) r
  else if r ≤ 10240 then piece 9216 10240 (9/2) (5) r
  else 5

theorem getCpu_eq_gSpec (r : ℚ) : getProportionalCpu r = gSpec r := by
  unfold gSpec
  rcases le_or_lt r 128 with h0 | h0
  · rw [if_pos h0]
    exact getCpu_low r h0
  rw [if_neg (by linarith)]
  rcases le_or_lt r 256 with h1 | h1
  · rw [if_pos h1]
    rcases eq_or_lt_of_le h1 with he | hlt
    · rw [he]
      have := getCpu_table (256, 1/8) (by norm_num [ AWS_LAMBDA_CPU_RATIO])
      rw [this]
      norm_num [piece]
    · rw [getCpu_between_1 r h0 hlt]
      norm_num [piece]
  rw [if_neg (by linarith)]
  rcases le_or_lt r 512 with h2 | h2
  · rw [if_pos h2]
    rcases eq_or_lt_of_le h2 with he | hlt
    · rw [he]
      have := getCpu_table (512, 1/4) (by norm_num [ AWS_LAMBDA_CPU_RATIO])
      rw [this]
      norm_num [piece]
    · rw [getCpu_between_2 r h1 hlt]
      norm_num [piece]
  rw [if_neg (by linarith)]
  rcases le_or_lt r 1024 with h3 | h3
  · rw [if_pos h3]
    rcases eq_or_lt_of_le h3 with he | hlt
    · rw [he]
      have := getCpu_table (1024, 1/2) (by norm_num [ AWS_LAMBDA_CPU_RATIO])
      rw [this]
      norm_num [piece]
    · rw [getCpu_between_3 r h2 hlt]
      norm_num [piece]
  rw [if_neg (by linarith)]
  rcases le_or_lt r 1536 with h4 | h4
  · rw [if_pos h4]
    rcases eq_or_lt_of_le h4 with he | hlt
    · rw [he]
      have := getCpu_table (1536, 3/4) (by norm_num [ AWS_LAMBDA_CPU_RATIO])
      rw [this]
      norm_num [piece]
    · rw [getCpu_between_4 r h3 hlt]
      norm_num [piece]
  rw [if_neg (by linarith)]
  rcases le_or_lt r 2048 with h5 | h5
  · rw [if_pos h5]
    rcases eq_or_lt_of_le h5 with he | hlt
    · rw [he]
      have := getCpu_table (2048, 1) (by norm_num [ AWS_LAMBDA_CPU_RATIO])
      rw [this]
      norm_num [piece]
    · rw [getCpu_between_5 r h4 hlt]
      norm_num [piece]
  rw [if_neg (by linarith)]
  rcases le_or_lt r 3008 with h6 | h6
  · rw [if_pos h6]
    rcases eq_or_lt_of_le h6 with he | hlt
    · rw [he]
      have := getCpu_table (3008, 3/2) (by norm_num [ AWS_LAMBDA_CPU_RATIO])
      rw [this]
      norm_num [piece]
    · rw [getCpu_between_6 r h5 hlt]
      norm_num [piece]
  rw [if_neg (by linarith)]
  rcases le_or_lt r 4096 with h7 | h7
  · rw [if_pos h7]
    rcases eq_or_lt_of_le h7 with he | hlt
    · rw [he]
      have := getCpu_table (4096, 2) (by norm_num [ AWS_LAMBDA_CPU_RATIO])
      rw [this]
      norm_num [piece]
    · rw [getCpu_between_7 r h6 hlt]
      norm_num [piece]
  rw [if_neg (by linarith)]
  rcases le_or_lt r 5120 with h8 | h8
  · rw [if_pos h8]
    rcases eq_or_lt_of_le h8 with he | hlt
    · rw [he]
      have := getCpu_table (5120, 5/2) (by norm_num [ AWS_LAMBDA_CPU_RATIO])
      rw [this]
      norm_num [piece]
    · rw [getCpu_between_8 r h7 hlt]
      norm_num [piece]
  rw [if_neg (by linarith)]
  rcases le_or_lt r 6144 with h9 | h9
  · rw [if_pos h9]
    rcases eq_or_lt_of_le h9 with he | hlt
    · rw [he]
      have := getCpu_table (6144, 3) (by norm_num [ AWS_LAMBDA_CPU_RATIO])
      rw [this]
      norm_num [piece]
    · rw [getCpu_between_9 r h8 hlt]
      norm_num [piece]
  rw [if_neg (by linarith)]
  rcases le_or_lt r 7168 with h10 | h10
  · rw [if_pos h10]
    rcases eq_or_lt_of_le h10 with he | hlt
    · rw [he]
      have := getCpu_table (7168, 7/2) (by norm_num [ AWS_LAMBDA_CPU_RATIO])
      rw [this]
      norm_num [piece]
    · rw [getCpu_between_10 r h9 hlt]
      norm_num [piece]
  rw [if_neg (by linarith)]
  rcases le_or_lt r 8192 with h11 | h11
  · rw [if_pos h11]
    rcases eq_or_lt_of_le h11 with he | hlt
    · rw [he]
      have := getCpu_table (8192, 4) (by norm_num [ AWS_LAMBDA_CPU_RATIO])
      rw [this]
      norm_num [piece]
    · rw [getCpu_between_11 r h10 hlt]
      norm_num [piece]
  rw [if_neg (by linarith)]
  rcases le_or_lt r 9216 with h12 | h12
  · rw [if_pos h12]
    rcases eq_or_lt_of_le h12 with he | hlt
    · rw [he]
      have := getCpu_table (9216, 9/2) (by norm_num [ AWS_LAMBDA_CPU_RATIO])
      rw [this]
      norm_num [piece]
    · rw [getCpu_between_12 r h11 hlt]
      norm_num [piece]
  rw [if_neg (by linarith)]
  rcases le_or_lt r 10240 with h13 | h13
  · rw [if_pos h13]
    rcases eq_or_lt_of_le h13 with he | hlt
    · rw [he]
      have := getCpu_table (10240, 5) (by norm_num [ AWS_LAMBDA_CPU_RATIO])
      rw [this]
      norm_num [piece]
    · rw [getCpu_between_13 r h12 hlt]
      norm_num [piece]
  rw [if_neg (by linarith)]
  exact getCpu_high r (by linarith)

theorem gSpec_eval_0 (r : ℚ) (h : r ≤ 128) : gSpec r = 1/16 := by
  unfold gSpec
  rw [if_pos h]

theorem gSpec_eval_1 (r : ℚ) (h1 : 128 < r) (h2 : r ≤ 256) :
    gSpec r = piece 128 256 (1/16) (1/8) r := by
  unfold gSpec
  rw [if_neg (by linarith)]
  rw [if_pos h2]

theorem gSpec_eval_2 (r : ℚ) (h1 : 256 < r) (h2 : r ≤ 512) :
    gSpec r = piece 256 512 (1/8) (1/4) r := by
  unfold gSpec
  rw [if_neg (by linarith)]
  rw [if_neg (show ¬(r ≤ 256) by linarith)]
  rw [if_pos h2]

theorem gSpec_eval_3 (r : ℚ) (h1 : 512 < r) (h2 : r ≤ 1024) :
    gSpec r = piece 512 1024 (1/4) (1/2) r := by
  unfold gSpec
  rw [if_neg (by linarith)]
  rw [if_neg (show ¬(r ≤ 256) by linarith)]
  rw [if_neg (show ¬(r ≤ 512) by linarith)]
  rw [if_pos h2]

theorem gSpec_eval_4 (r : ℚ) (h1 : 1024 < r) (h2 : r ≤ 1536) :
    gSpec r = piece 1024 1536 (1/2) (3/4) r := by
  unfold gSpec
  rw [if_neg (by linarith)]
  rw [if_neg (show ¬(r ≤ 256) by linarith)]
  rw [if_neg (show ¬(r ≤ 512) by linarith)]
  rw [if_neg (show ¬(r ≤ 1024) by linarith)]
  rw [if_pos h2]

theorem gSpec_eval_5 (r : ℚ) (h1 : 1536 < r) (h2 : r ≤ 2048) :
    gSpec r = piece 1536 2048 (3/4) (1) r := by
  unfold gSpec
  rw [if_neg (by linarith)]
  rw [if_neg (show ¬(r ≤ 256) by linarith)]
  rw [if_neg (show ¬(r ≤ 512) by linarith)]
  rw [if_neg (show ¬(r ≤ 1024) by linarith)]
  rw [if_neg (show ¬(r ≤ 1536) by linarith)]
  rw [if_pos h2]

theorem gSpec_eval_6 (r : ℚ) (h1 : 2048 < r) (h2 : r ≤ 3008) :
    gSpec r = piece 2048 3008 (1) (3/2) r := by
  unfold gSpec
  rw [if_neg (by linarith)]
  rw [if_neg (show ¬(r ≤ 256) by linarith)]
  rw [if_neg (show ¬(r ≤ 512) by linarith)]
  rw [if_neg (show ¬(r ≤ 1024) by linarith)]
  rw [if_neg (show ¬(r ≤ 1536) by linarith)]
  rw [if_neg (show ¬(r ≤ 2048) by linarith)]
  rw [if_pos h2]

theorem gSpec_eval_7 (r : ℚ) (h1 : 3008 < r) (h2 : r ≤ 4096) :
    gSpec r = piece 3008 4096 (3/2) (2) r := by
  unfold gSpec
  rw [if_neg (by linarith)]
  rw [if_neg (show ¬(r ≤ 256) by linarith)]
  rw [if_neg (show ¬(r ≤ 512) by linarith)]
  rw [if_neg (show ¬(r ≤ 1024) by linarith)]
  rw [if_neg (show ¬(r ≤ 1536) by linarith)]
  rw [if_neg (show ¬(r ≤ 2048) by linarith)]
  rw [if_neg (show ¬(r ≤ 3008) by linarith)]
  rw [if_pos h2]

theorem gSpec_eval_8 (r : ℚ) (h1 : 4096 < r) (h2 : r ≤ 5120) :
    gSpec r = piece 4096 5120 (2) (5/2) r := by
  unfold gSpec
  rw [if_neg (by linarith)]
  rw [if_neg (show ¬(r ≤ 256) by linarith)]
  rw [if_neg (show ¬(r ≤ 512) by linarith)]
  rw [if_neg (show ¬(r ≤ 1024) by linarith)]
  rw [if_neg (show ¬(r ≤ 1536) by linarith)]
  rw [if_neg (show ¬(r ≤ 2048) by linarith)]
  rw [if_neg (show ¬(r ≤ 3008) by linarith)]
  rw [if_neg (show ¬(r ≤ 4096) by linarith)]
  rw [if_pos h2]

theorem gSpec_eval_9 (r : ℚ) (h1 : 5120 < r) (h2 : r ≤ 6144) :
    gSpec r = piece 5120 6144 (5/2) (3) r := by
  unfold gSpec
  rw [if_neg (by linarith)]
  rw [if_neg (show ¬(r ≤ 256) by linarith)]
  rw [if_neg (show ¬(r ≤ 512) by linarith)]
  rw [if_neg (show ¬(r ≤ 1024) by linarith)]
  rw [if_neg (show ¬(r ≤ 1536) by linarith)]
  rw [if_neg (show ¬(r ≤ 2048) by linarith)]
  rw [if_neg (show ¬(r ≤ 3008) by linarith)]
  rw [if_neg (show ¬(r ≤ 4096) by linarith)]
  rw [if_neg (show ¬(r ≤ 5120) by linarith)]
  rw [if_pos h2]

theorem gSpec_eval_10 (r : ℚ) (h1 : 6144 < r) (h2 : r ≤ 7168) :
    gSpec r = piece 6144 7168 (3) (7/2) r := by
  unfold gSpec
  rw [if_neg (by linarith)]
  rw [if_neg (show ¬(r ≤ 256) by linarith)]
  rw [if_neg (show ¬(r ≤ 512) by linarith)]
  rw [if_neg (show ¬(r ≤ 1024) by linarith)]
  rw [if_neg (show ¬(r ≤ 1536) by linarith)]
  rw [if_neg (show ¬(r ≤ 2048) by linarith)]
  rw [if_neg (show ¬(r ≤ 3008) by linarith)]
  rw [if_neg (show ¬(r ≤ 4096) by linarith)]
  rw [if_neg (show ¬(r ≤ 5120) by linarith)]
  rw [if_neg (show ¬(r ≤ 6144) by linarith)]
  rw [if_pos h2]

theorem gSpec_eval_11 (r : ℚ) (h1 : 7168 < r) (h2 : r ≤ 8192) :
    gSpec r = piece 7168 8192 (7/2) (4) r := by
  unfold gSpec
  rw [if_neg (by linarith)]
  rw [if_neg (show ¬(r ≤ 256) by linarith)]
  rw [if_neg (show ¬(r ≤ 512) by linarith)]
  rw [if_neg (show ¬(r ≤ 1024) by linarith)]
  rw [if_neg (show ¬(r ≤ 1536) by linarith)]
  rw [if_neg (show ¬(r ≤ 2048) by linarith)]
  rw [if_neg (show ¬(r ≤ 3008) by linarith)]
  rw [if_neg (show ¬(r ≤ 4096) by linarith)]
  rw [if_neg (show ¬(r ≤ 5120) by linarith)]
  rw [if_neg (show ¬(r ≤ 6144) by linarith)]
  rw [if_neg (show ¬(r ≤ 7168) by linarith)]
  rw [if_pos h2]

theorem gSpec_eval_12 (r : ℚ) (h1 : 8192 < r) (h2 : r ≤ 9216) :
    gSpec r = piece 8192 9216 (4) (9/2) r := by
  unfold gSpec
  rw [if_neg (by linarith)]
  rw [if_neg (show ¬(r ≤ 256) by linarith)]
  rw [if_neg (show ¬(r ≤ 512) by linarith)]
  rw [if_neg (show ¬(r ≤ 1024) by linarith)]
  rw [if_neg (show ¬(r ≤ 1536) by linarith)]
  rw [if_neg (show ¬(r ≤ 2048) by linarith)]
  rw [if_neg (show ¬(r ≤ 3008) by linarith)]
  rw [if_neg (show ¬(r ≤ 4096) by linarith)]
  rw [if_neg (show ¬(r ≤ 5120) by linarith)]
  rw [if_neg (show ¬(r ≤ 6144) by linarith)]
  rw [if_neg (show ¬(r ≤ 7168) by linarith)]
  rw [if_neg (show ¬(r ≤ 8192) by linarith)]
  rw [if_pos h2]

theorem gSpec_eval_13 (r : ℚ) (h1 : 9216 < r) (h2 : r ≤ 10240) :
    gSpec r = piece 9216 10240 (9/2) (5) r := by
  unfold gSpec
  rw [if_neg (by linarith)]
  rw [if_neg (show ¬(r ≤ 256) by linarith)]
  rw [if_neg (show ¬(r ≤ 512) by linarith)]
  rw [if_neg (show ¬(r ≤ 1024) by linarith)]
  rw [if_neg (show ¬(r ≤ 1536) by linarith)]
  rw [if_neg (show ¬(r ≤ 2048) by linarith)]
  rw [if_neg (show ¬(r ≤ 3008) by linarith)]
  rw [if_neg (show ¬(r ≤ 4096) by linarith)]
  rw [if_neg (show ¬(r ≤ 5120) by linarith)]
  rw [if_neg (show ¬(r ≤ 6144) by linarith)]
  rw [if_neg (show ¬(r ≤ 7168) by linarith)]
  rw [if_neg (show ¬(r ≤ 8192) by linarith)]
  rw [if_neg (show ¬(r ≤ 9216) by linarith)]
  rw [if_pos h2]

theorem gSpec_eval_14 (r : ℚ) (h : 10240 < r) : gSpec r = 5 := by
  unfold gSpec
  rw [if_neg (by linarith)]
  rw [if_neg (show ¬(r ≤ 256) by linarith)]
  rw [if_neg (show ¬(r ≤ 512) by linarith)]
  rw [if_neg (show ¬(r ≤ 1024) by linarith)]
  rw [if_neg (show ¬(r ≤ 1536) by linarith)]
  rw [if_neg (show ¬(r ≤ 2048) by linarith)]
  rw [if_neg (show ¬(r ≤ 3008) by linarith)]
  rw [if_neg (show ¬(r ≤ 4096) by linarith)]
  rw [if_neg (show ¬(r ≤ 5120) by linarith)]
  rw [if_neg (show ¬(r ≤ 6144) by linarith)]
  rw [if_neg (show ¬(r ≤ 7168) by linarith)]
  rw [if_neg (show ¬(r ≤ 8192) by linarith)]
  rw [if_neg (show ¬(r ≤ 9216) by linarith)]
  rw [if_neg (show ¬(r ≤ 10240) by linarith)]

theorem gSpec_mono_r0 (a b : ℚ) (ha1 : a ≤ 128) (hab : a ≤ b) :
    gSpec a ≤ gSpec b := by
  rw [gSpec_eval_0 a ha1]
  rcases le_or_lt b 128 with hb1 | hb1
  · rw [gSpec_eval_0 b hb1]
    try unfold piece
    try linarith
  rcases le_or_lt b 256 with hb2 | hb2
  · rw [gSpec_eval_1 b hb1 hb2]
    try unfold piece
    try linarith
  rcases le_or_lt b 512 with hb3 | hb3
  · rw [gSpec_eval_2 b hb2 hb3]
    try unfold piece
    try linarith
  rcases le_or_lt b 1024 with hb4 | hb4
  · rw [gSpec_eval_3 b hb3 hb4]
    try unfold piece
    try linarith
  rcases le_or_lt b 1536 with hb5 | hb5
  · rw [gSpec_eval_4 b hb4 hb5]
    try unfold piece
    try linarith
  rcases le_or_lt b 2048 with hb6 | hb6
  · rw [gSpec_eval_5 b hb5 hb6]
    try unfold piece
    try linarith
  rcases le_or_lt b 3008 with hb7 | hb7
  · rw [gSpec_eval_6 b hb6 hb7]
    try unfold piece
    try linarith
  rcases le_or_lt b 4096 with hb8 | hb8
  · rw [gSpec_eval_7 b hb7 hb8]
    try unfold piece
    try linarith
  rcases le_or_lt b 5120 with hb9 | hb9
  · rw [gSpec_eval_8 b hb8 hb9]
    try unfold piece
    try linarith
  rcases le_or_lt b 6144 with hb10 | hb10
  · rw [gSpec_eval_9 b hb9 hb10]
    try unfold piece
    try linarith
  rcases le_or_lt b 7168 with hb11 | hb11
  · rw [gSpec_eval_10 b hb10 hb11]
    try unfold piece
    try linarith
  rcases le_or_lt b 8192 with hb12 | hb12
  · rw [gSpec_eval_11 b hb11 hb12]
    try unfold piece
    try linarith
  rcases le_or_lt b 9216 with hb13 | hb13
  · rw [gSpec_eval_12 b hb12 hb13]
    try unfold piece
    try linarith
  rcases le_or_lt b 10240 with hb14 | hb14
  · rw [gSpec_eval_13 b hb13 hb14]
    try unfold piece
    try linarith
  rw [gSpec_eval_14 b hb14]
  try unfold piece
  try linarith

theorem gSpec_mono_r1 (a b : ℚ) (ha1 : 128 < a) (ha2 : a ≤ 256) (hab : a ≤ b) :
    gSpec a ≤ gSpec b := by
  rw [gSpec_eval_1 a ha1 ha2]
  rcases le_or_lt b 128 with hb1 | hb1
  · rw [gSpec_eval_0 b hb1]
    try unfold piece
    try linarith
  rcases le_or_lt b 256 with hb2 | hb2
  · rw [gSpec_eval_1 b hb1 hb2]
    try unfold piece
    try linarith
  rcases le_or_lt b 512 with hb3 | hb3
  · rw [gSpec_eval_2 b hb2 hb3]
    try unfold piece
    try linarith
  rcases le_or_lt b 1024 with hb4 | hb4
  · rw [gSpec_eval_3 b hb3 hb4]
    try unfold piece
    try linarith
  rcases le_or_lt b 1536 with hb5 | hb5
  · rw [gSpec_eval_4 b hb4 hb5]
    try unfold piece
    try linarith
  rcases le_or_lt b 2048 with hb6 | hb6
  · rw [gSpec_eval_5 b hb5 hb6]
    try unfold piece
    try linarith
  rcases le_or_lt b 3008 with hb7 | hb7
  · rw [gSpec_eval_6 b hb6 hb7]
    try unfold piece
    try linarith
  rcases le_or_lt b 4096 with hb8 | hb8
  · rw [gSpec_eval_7 b hb7 hb8]
    try unfold piece
    try linarith
  rcases le_or_lt b 5120 with hb9 | hb9
  · rw [gSpec_eval_8 b hb8 hb9]
    try unfold piece
    try linarith
  rcases le_or_lt b 6144 with hb10 | hb10
  · rw [gSpec_eval_9 b hb9 hb10]
    try unfold piece
    try linarith
  rcases le_or_lt b 7168 with hb11 | hb11
  · rw [gSpec_eval_10 b hb10 hb11]
    try unfold piece
    try linarith
  rcases le_or_lt b 8192 with hb12 | hb12
  · rw [gSpec_eval_11 b hb11 hb12]
    try unfold piece
    try linarith
  rcases le_or_lt b 9216 with hb13 | hb13
  · rw [gSpec_eval_12 b hb12 hb13]
    try unfold piece
    try linarith
  rcases le_or_lt b 10240 with hb14 | hb14
  · rw [gSpec_eval_13 b hb13 hb14]
    try unfold piece
    try linarith
  rw [gSpec_eval_14 b hb14]
  try unfold piece
  try linarith

theorem gSpec_mono_r2 (a b : ℚ) (ha1 : 256 < a) (ha2 : a ≤ 512) (hab : a ≤ b) :
    gSpec a ≤ gSpec b := by
  rw [gSpec_eval_2 a ha1 ha2]
  rcases le_or_lt b 128 with hb1 | hb1
  · rw [gSpec_eval_0 b hb1]
    try unfold piece
    try linarith
  rcases le_or_lt b 256 with hb2 | hb2
  · rw [gSpec_eval_1 b hb1 hb2]
    try unfold piece
    try linarith
  rcases le_or_lt b 512 with hb3 | hb3
  · rw [gSpec_eval_2 b hb2 hb3]
    try unfold piece
    try linarith
  rcases le_or_lt b 1024 with hb4 | hb4
  · rw [gSpec_eval_3 b hb3 hb4]
    try unfold piece
    try linarith
  rcases le_or_lt b 1536 with hb5 | hb5
  · rw [gSpec_eval_4 b hb4 hb5]
    try unfold piece
    try linarith
  rcases le_or_lt b 2048 with hb6 | hb6
  · rw [gSpec_eval_5 b hb5 hb6]
    try unfold piece
    try linarith
  rcases le_or_lt b 3008 with hb7 | hb7
  · rw [gSpec_eval_6 b hb6 hb7]
    try unfold piece
    try linarith
  rcases le_or_lt b 4096 with hb8 | hb8
  · rw [gSpec_eval_7 b hb7 hb8]
    try unfold piece
    try linarith
  rcases le_or_lt b 5120 with hb9 | hb9
  · rw [gSpec_eval_8 b hb8 hb9]
    try unfold piece
    try linarith
  rcases le_or_lt b 6144 with hb10 | hb10
  · rw [gSpec_eval_9 b hb9 hb10]
    try unfold piece
    try linarith
  rcases le_or_lt b 7168 with hb11 | hb11
  · rw [gSpec_eval_10 b hb10 hb11]
    try unfold piece
    try linarith
  rcases le_or_lt b 8192 with hb12 | hb12
  · rw [gSpec_eval_11 b hb11 hb12]
    try unfold piece
    try linarith
  rcases le_or_lt b 9216 with hb13 | hb13
  · rw [gSpec_eval_12 b hb12 hb13]
    try unfold piece
    try linarith
  rcases le_or_lt b 10240 with hb14 | hb14
  · rw [gSpec_eval_13 b hb13 hb14]
    try unfold piece
    try linarith
  rw [gSpec_eval_14 b hb14]
  try unfold piece
  try linarith

theorem gSpec_mono_r3 (a b : ℚ) (ha1 : 512 < a) (ha2 : a ≤ 1024) (hab : a ≤ b) :
    gSpec a ≤ gSpec b := by
  rw [gSpec_eval_3 a ha1 ha2]
  rcases le_or_lt b 128 with hb1 | hb1
  · rw [gSpec_eval_0 b hb1]
    try unfold piece
    try linarith
  rcases le_or_lt b 256 with hb2 | hb2
  · rw [gSpec_eval_1 b hb1 hb2]
    try unfold piece
    try linarith
  rcases le_or_lt b 512 with hb3 | hb3
  · rw [gSpec_eval_2 b hb2 hb3]
    try unfold piece
    try linarith
  rcases le_or_lt b 1024 with hb4 | hb4
  · rw [gSpec_eval_3 b hb3 hb4]
    try unfold piece
    try linarith
  rcases le_or_lt b 1536 with hb5 | hb5
  · rw [gSpec_eval_4 b hb4 hb5]
    try unfold piece
    try linarith
  rcases le_or_lt b 2048 with hb6 | hb6
  · rw [gSpec_eval_5 b hb5 hb6]
    try unfold piece
    try linarith
  rcases le_or_lt b 3008 with hb7 | hb7
  · rw [gSpec_eval_6 b hb6 hb7]
    try unfold piece
    try linarith
  rcases le_or_lt b 4096 with hb8 | hb8
  · rw [gSpec_eval_7 b hb7 hb8]
    try unfold piece
    try linarith
  rcases le_or_lt b 5120 with hb9 | hb9
  · rw [gSpec_eval_8 b hb8 hb9]
    try unfold piece
    try linarith
  rcases le_or_lt b 6144 with hb10 | hb10
  · rw [gSpec_eval_9 b hb9 hb10]
    try unfold piece
    try linarith
  rcases le_or_lt b 7168 with hb11 | hb11
  · rw [gSpec_eval_10 b hb10 hb11]
    try unfold piece
    try linarith
  rcases le_or_lt b 8192 with hb12 | hb12
  · rw [gSpec_eval_11 b hb11 hb12]
    try unfold piece
    try linarith
  rcases le_or_lt b 9216 with hb13 | hb13
  · rw [gSpec_eval_12 b hb12 hb13]
    try unfold piece
    try linarith
  rcases le_or_lt b 10240 with hb14 | hb14
  · rw [gSpec_eval_13 b hb13 hb14]
    try unfold piece
    try linarith
  rw [gSpec_eval_14 b hb14]
  try unfold piece
  try linarith

theorem gSpec_mono_r4 (a b : ℚ) (ha1 : 1024 < a) (ha2 : a ≤ 1536) (hab : a ≤ b) :
    gSpec a ≤ gSpec b := by
  rw [gSpec_eval_4 a ha1 ha2]
  rcases le_or_lt b 128 with hb1 | hb1
  · rw [gSpec_eval_0 b hb1]
    try unfold piece
    try linarith
  rcases le_or_lt b 256 with hb2 | hb2
  · rw [gSpec_eval_1 b hb1 hb2]
    try unfold piece
    try linarith
  rcases le_or_lt b 512 with hb3 | hb3
  · rw [gSpec_eval_2 b hb2 hb3]
    try unfold piece
    try linarith
  rcases le_or_lt b 1024 with hb4 | hb4
  · rw [gSpec_eval_3 b hb3 hb4]
    try unfold piece
    try linarith
  rcases le_or_lt b 1536 with hb5 | hb5
  · rw [gSpec_eval_4 b hb4 hb5]
    try unfold piece
    try linarith
  rcases le_or_lt b 2048 with hb6 | hb6
  · rw [gSpec_eval_5 b hb5 hb6]
    try unfold piece
    try linarith
  rcases le_or_lt b 3008 with hb7 | hb7
  · rw [gSpec_eval_6 b hb6 hb7]
    try unfold piece
    try linarith
  rcases le_or_lt b 4096 with hb8 | hb8
  · rw [gSpec_eval_7 b hb7 hb8]
    try unfold piece
    try linarith
  rcases le_or_lt b 5120 with hb9 | hb9
  · rw [gSpec_eval_8 b hb8 hb9]
    try unfold piece
    try linarith
  rcases le_or_lt b 6144 with hb10 | hb10
  · rw [gSpec_eval_9 b hb9 hb10]
    try unfold piece
    try linarith
  rcases le_or_lt b 7168 with hb11 | hb11
  · rw [gSpec_eval_10 b hb10 hb11]
    try unfold piece
    try linarith
  rcases le_or_lt b 8192 with hb12 | hb12
  · rw [gSpec_eval_11 b hb11 hb12]
    try unfold piece
    try linarith
  rcases le_or_lt b 9216 with hb13 | hb13
  · rw [gSpec_eval_12 b hb12 hb13]
    try unfold piece
    try linarith
  rcases le_or_lt b 10240 with hb14 | hb14
  · rw [gSpec_eval_13 b hb13 hb14]
    try unfold piece
    try linarith
  rw [gSpec_eval_14 b hb14]
  try unfold piece
  try linarith

theorem gSpec_mono_r5 (a b : ℚ) (ha1 : 1536 < a) (ha2 : a ≤ 2048) (hab : a ≤ b) :
    gSpec a ≤ gSpec b := by
  rw [gSpec_eval_5 a ha1 ha2]
  rcases le_or_lt b 128 with hb1 | hb1
  · rw [gSpec_eval_0 b hb1]
    try unfold piece
    try linarith
  rcases le_or_lt b 256 with hb2 | hb2
  · rw [gSpec_eval_1 b hb1 hb2]
    try unfold piece
    try linarith
  rcases le_or_lt b 512 with hb3 | hb3
  · rw [gSpec_eval_2 b hb2 hb3]
    try unfold piece
    try linarith
  rcases le_or_lt b 1024 with hb4 | hb4
  · rw [gSpec_eval_3 b hb3 hb4]
    try unfold piece
    try linarith
  rcases le_or_lt b 1536 with hb5 | hb5
  · rw [gSpec_eval_4 b hb4 hb5]
    try unfold piece
    try linarith
  rcases le_or_lt b 2048 with hb6 | hb6
  · rw [gSpec_eval_5 b hb5 hb6]
    try unfold piece
    try linarith
  rcases le_or_lt b 3008 with hb7 | hb7
  · rw [gSpec_eval_6 b hb6 hb7]
    try unfold piece
    try linarith
  rcases le_or_lt b 4096 with hb8 | hb8
  · rw [gSpec_eval_7 b hb7 hb8]
    try unfold piece
    try linarith
  rcases le_or_lt b 5120 with hb9 | hb9
  · rw [gSpec_eval_8 b hb8 hb9]
    try unfold piece
    try linarith
  rcases le_or_lt b 6144 with hb10 | hb10
  · rw [gSpec_eval_9 b hb9 hb10]
    try unfold piece
    try linarith
  rcases le_or_lt b 7168 with hb11 | hb11
  · rw [gSpec_eval_10 b hb10 hb11]
    try unfold piece
    try linarith
  rcases le_or_lt b 8192 with hb12 | hb12
  · rw [gSpec_eval_11 b hb11 hb12]
    try unfold piece
    try linarith
  rcases le_or_lt b 9216 with hb13 | hb13
  · rw [gSpec_eval_12 b hb12 hb13]
    try unfold piece
    try linarith
  rcases le_or_lt b 10240 with hb14 | hb14
  · rw [gSpec_eval_13 b hb13 hb14]
    try unfold piece
    try linarith
  rw [gSpec_eval_14 b hb14]
  try unfold piece
  try linarith

theorem gSpec_mono_r6 (a b : ℚ) (ha1 : 2048 < a) (ha2 : a ≤ 3008) (hab : a ≤ b) :
    gSpec a ≤ gSpec b := by
  rw [gSpec_eval_6 a ha1 ha2]
  rcases le_or_lt b 128 with hb1 | hb1
  · rw [gSpec_eval_0 b hb1]
    try unfold piece
    try linarith
  rcases le_or_lt b 256 with hb2 | hb2
  · rw [gSpec_eval_1 b hb1 hb2]
    try unfold piece
    try linarith
  rcases le_or_lt b 512 with hb3 | hb3
  · rw [gSpec_eval_2 b hb2 hb3]
    try unfold piece
    try linarith
  rcases le_or_lt b 1024 with hb4 | hb4
  · rw [gSpec_eval_3 b hb3 hb4]
    try unfold piece
    try linarith
  rcases le_or_lt b 1536 with hb5 | hb5
  · rw [gSpec_eval_4 b hb4 hb5]
    try unfold piece
    try linarith
  rcases le_or_lt b 2048 with hb6 | hb6
  · rw [gSpec_eval_5 b hb5 hb6]
    try unfold piece
    try linarith
  rcases le_or_lt b 3008 with hb7 | hb7
  · rw [gSpec_eval_6 b hb6 hb7]
    try unfold piece
    try linarith
  rcases le_or_lt b 4096 with hb8 | hb8
  · rw [gSpec_eval_7 b hb7 hb8]
    try unfold piece
    try linarith
  rcases le_or_lt b 5120 with hb9 | hb9
  · rw [gSpec_eval_8 b hb8 hb9]
    try unfold piece
    try linarith
  rcases le_or_lt b 6144 with hb10 | hb10
  · rw [gSpec_eval_9 b hb9 hb10]
    try unfold piece
    try linarith
  rcases le_or_lt b 7168 with hb11 | hb11
  · rw [gSpec_eval_10 b hb10 hb11]
    try unfold piece
    try linarith
  rcases le_or_lt b 8192 with hb12 | hb12
  · rw [gSpec_eval_11 b hb11 hb12]
    try unfold piece
    try linarith
  rcases le_or_lt b 9216 with hb13 | hb13
  · rw [gSpec_eval_12 b hb12 hb13]
    try unfold piece
    try linarith
  rcases le_or_lt b 10240 with hb14 | hb14
  · rw [gSpec_eval_13 b hb13 hb14]
    try unfold piece
    try linarith
  rw [gSpec_eval_14 b hb14]
  try unfold piece
  try linarith

theorem gSpec_mono_r7 (a b : ℚ) (ha1 : 3008 < a) (ha2 : a ≤ 4096) (hab : a ≤ b) :
    gSpec a ≤ gSpec b := by
  rw [gSpec_eval_7 a ha1 ha2]
  rcases le_or_lt b 128 with hb1 | hb1
  · rw [gSpec_eval_0 b hb1]
    try unfold piece
    try linarith
  rcases le_or_lt b 256 with hb2 | hb2
  · rw [gSpec_eval_1 b hb1 hb2]
    try unfold piece
    try linarith
  rcases le_or_lt b 512 with hb3 | hb3
  · rw [gSpec_eval_2 b hb2 hb3]
    try unfold piece
    try linarith
  rcases le_or_lt b 1024 with hb4 | hb4
  · rw [gSpec_eval_3 b hb3 hb4]
    try unfold piece
    try linarith
  rcases le_or_lt b 1536 with hb5 | hb5
  · rw [gSpec_eval_4 b hb4 hb5]
    try unfold piece
    try linarith
  rcases le_or_lt b 2048 with hb6 | hb6
  · rw [gSpec_eval_5 b hb5 hb6]
    try unfold piece
    try linarith
  rcases le_or_lt b 3008 with hb7 | hb7
  · rw [gSpec_eval_6 b hb6 hb7]
    try unfold piece
    try linarith
  rcases le_or_lt b 4096 with hb8 | hb8
  · rw [gSpec_eval_7 b hb7 hb8]
    try unfold piece
    try linarith
  rcases le_or_lt b 5120 with hb9 | hb9
  · rw [gSpec_eval_8 b hb8 hb9]
    try unfold piece
    try linarith
  rcases le_or_lt b 6144 with hb10 | hb10
  · rw [gSpec_eval_9 b hb9 hb10]
    try unfold piece
    try linarith
  rcases le_or_lt b 7168 with hb11 | hb11
  · rw [gSpec_eval_10 b hb10 hb11]
    try unfold piece
    try linarith
  rcases le_or_lt b 8192 with hb12 | hb12
  · rw [gSpec_eval_11 b hb11 hb12]
    try unfold piece
    try linarith
  rcases le_or_lt b 9216 with hb13 | hb13
  · rw [gSpec_eval_12 b hb12 hb13]
    try unfold piece
    try linarith
  rcases le_or_lt b 10240 with hb14 | hb14
  · rw [gSpec_eval_13 b hb13 hb14]
    try unfold piece
    try linarith
  rw [gSpec_eval_14 b hb14]
  try unfold piece
  try linarith

theorem gSpec_mono_r8 (a b : ℚ) (ha1 : 4096 < a) (ha2 : a ≤ 5120) (hab : a ≤ b) :
    gSpec a ≤ gSpec b := by
  rw [gSpec_eval_8 a ha1 ha2]
  rcases le_or_lt b 128 with hb1 | hb1
  · rw [gSpec_eval_0 b hb1]
    try unfold piece
    try linarith
  rcases le_or_lt b 256 with hb2 | hb2
  · rw [gSpec_eval_1 b hb1 hb2]
    try unfold piece
    try linarith
  rcases le_or_lt b 512 with hb3 | hb3
  · rw [gSpec_eval_2 b hb2 hb3]
    try unfold piece
    try linarith
  rcases le_or_lt b 1024 with hb4 | hb4
  · rw [gSpec_eval_3 b hb3 hb4]
    try unfold piece
    try linarith
  rcases le_or_lt b 1536 with hb5 | hb5
  · rw [gSpec_eval_4 b hb4 hb5]
    try unfold piece
    try linarith
  rcases le_or_lt b 2048 with hb6 | hb6
  · rw [gSpec_eval_5 b hb5 hb6]
    try unfold piece
    try linarith
  rcases le_or_lt b 3008 with hb7 | hb7
  · rw [gSpec_eval_6 b hb6 hb7]
    try unfold piece
    try linarith
  rcases le_or_lt b 4096 with hb8 | hb8
  · rw [gSpec_eval_7 b hb7 hb8]
    try unfold piece
    try linarith
  rcases le_or_lt b 5120 with hb9 | hb9
  · rw [gSpec_eval_8 b hb8 hb9]
    try unfold piece
    try linarith
  rcases le_or_lt b 6144 with hb10 | hb10
  · rw [gSpec_eval_9 b hb9 hb10]
    try unfold piece
    try linarith
  rcases le_or_lt b 7168 with hb11 | hb11
  · rw [gSpec_eval_10 b hb10 hb11]
    try unfold piece
    try linarith
  rcases le_or_lt b 8192 with hb12 | hb12
  · rw [gSpec_eval_11 b hb11 hb12]
    try unfold piece
    try linarith
  rcases le_or_lt b 9216 with hb13 | hb13
  · rw [gSpec_eval_12 b hb12 hb13]
    try unfold piece
    try linarith
  rcases le_or_lt b 10240 with hb14 | hb14
  · rw [gSpec_eval_13 b hb13 hb14]
    try unfold piece
    try linarith
  rw [gSpec_eval_14 b hb14]
  try unfold piece
  try linarith

theorem gSpec_mono_r9 (a b : ℚ) (ha1 : 5120 < a) (ha2 : a ≤ 6144) (hab : a ≤ b) :
    gSpec a ≤ gSpec b := by
  rw [gSpec_eval_9 a ha1 ha2]
  rcases le_or_lt b 128 with hb1 | hb1
  · rw [gSpec_eval_0 b hb1]
    try unfold piece
    try linarith
  rcases le_or_lt b 256 with hb2 | hb2
  · rw [gSpec_eval_1 b hb1 hb2]
    try unfold piece
    try linarith
  rcases le_or_lt b 512 with hb3 | hb3
  · rw [gSpec_eval_2 b hb2 hb3]
    try unfold piece
    try linarith
  rcases le_or_lt b 1024 with hb4 | hb4
  · rw [gSpec_eval_3 b hb3 hb4]
    try unfold piece
    try linarith
  rcases le_or_lt b 1536 with hb5 | hb5
  · rw [gSpec_eval_4 b hb4 hb5]
    try unfold piece
    try linarith
  rcases le_or_lt b 2048 with hb6 | hb6
  · rw [gSpec_eval_5 b hb5 hb6]
    try unfold piece
    try linarith
  rcases le_or_lt b 3008 with hb7 | hb7
  · rw [gSpec_eval_6 b hb6 hb7]
    try unfold piece
    try linarith
  rcases le_or_lt b 4096 with hb8 | hb8
  · rw [gSpec_eval_7 b hb7 hb8]
    try unfold piece
    try linarith
  rcases le_or_lt b 5120 with hb9 | hb9
  · rw [gSpec_eval_8 b hb8 hb9]
    try unfold piece
    try linarith
  rcases le_or_lt b 6144 with hb10 | hb10
  · rw [gSpec_eval_9 b hb9 hb10]
    try unfold piece
    try linarith
  rcases le_or_lt b 7168 with hb11 | hb11
  · rw [gSpec_eval_10 b hb10 hb11]
    try unfold piece
    try linarith
  rcases le_or_lt b 8192 with hb12 | hb12
  · rw [gSpec_eval_11 b hb11 hb12]
    try unfold piece
    try linarith
  rcases le_or_lt b 9216 with hb13 | hb13
  · rw [gSpec_eval_12 b hb12 hb13]
    try unfold piece
    try linarith
  rcases le_or_lt b 10240 with hb14 | hb14
  · rw [gSpec_eval_13 b hb13 hb14]
    try unfold piece
    try linarith
  rw [gSpec_eval_14 b hb14]
  try unfold piece
  try linarith

theorem gSpec_mono_r10 (a b : ℚ) (ha1 : 6144 < a) (ha2 : a ≤ 7168) (hab : a ≤ b) :
    gSpec a ≤ gSpec b := by
  rw [gSpec_eval_10 a ha1 ha2]
  rcases le_or_lt b 128 with hb1 | hb1
  · rw [gSpec_eval_0 b hb1]
    try unfold piece
    try linarith
  rcases le_or_lt b 256 with hb2 | hb2
  · rw [gSpec_eval_1 b hb1 hb2]
    try unfold piece
    try linarith
  rcases le_or_lt b 512 with hb3 | hb3
  · rw [gSpec_eval_2 b hb2 hb3]
    try unfold piece
    try linarith
  rcases le_or_lt b 1024 with hb4 | hb4
  · rw [gSpec_eval_3 b hb3 hb4]
    try unfold piece
    try linarith
  rcases le_or_lt b 1536 with hb5 | hb5
  · rw [gSpec_eval_4 b hb4 hb5]
    try unfold piece
    try linarith
  rcases le_or_lt b 2048 with hb6 | hb6
  · rw [gSpec_eval_5 b hb5 hb6]
    try unfold piece
    try linarith
  rcases le_or_lt b 3008 with hb7 | hb7
  · rw [gSpec_eval_6 b hb6 hb7]
    try unfold piece
    try linarith
  rcases le_or_lt b 4096 with hb8 | hb8
  · rw [gSpec_eval_7 b hb7 hb8]
    try unfold piece
    try linarith
  rcases le_or_lt b 5120 with hb9 | hb9
  · rw [gSpec_eval_8 b hb8 hb9]
    try unfold piece
    try linarith
  rcases le_or_lt b 6144 with hb10 | hb10
  · rw [gSpec_eval_9 b hb9 hb10]
    try unfold piece
    try linarith
  rcases le_or_lt b 7168 with hb11 | hb11
  · rw [gSpec_eval_10 b hb10 hb11]
    try unfold piece
    try linarith
  rcases le_or_lt b 8192 with hb12 | hb12
  · rw [gSpec_eval_11 b hb11 hb12]
    try unfold piece
    try linarith
  rcases le_or_lt b 9216 with hb13 | hb13
  · rw [gSpec_eval_12 b hb12 hb13]
    try unfold piece
    try linarith
  rcases le_or_lt b 10240 with hb14 | hb14
  · rw [gSpec_eval_13 b hb13 hb14]
    try unfold piece
    try linarith
  rw [gSpec_eval_14 b hb14]
  try unfold piece
  try linarith

theorem gSpec_mono_r11 (a b : ℚ) (ha1 : 7168 < a) (ha2 : a ≤ 8192) (hab : a ≤ b) :
    gSpec a ≤ gSpec b := by
  rw [gSpec_eval_11 a ha1 ha2]
  rcases le_or_lt b 128 with hb1 | hb1
  · rw [gSpec_eval_0 b hb1]
    try unfold piece
    try linarith
  rcases le_or_lt b 256 with hb2 | hb2
  · rw [gSpec_eval_1 b hb1 hb2]
    try unfold piece
    try linarith
  rcases le_or_lt b 512 with hb3 | hb3
  · rw [gSpec_eval_2 b hb2 hb3]
    try unfold piece
    try linarith
  rcases le_or_lt b 1024 with hb4 | hb4
  · rw [gSpec_eval_3 b hb3 hb4]
    try unfold piece
    try linarith
  rcases le_or_lt b 1536 with hb5 | hb5
  · rw [gSpec_eval_4 b hb4 hb5]
    try unfold piece
    try linarith
  rcases le_or_lt b 2048 with hb6 | hb6
  · rw [gSpec_eval_5 b hb5 hb6]
    try unfold piece
    try linarith
  rcases le_or_lt b 3008 with hb7 | hb7
  · rw [gSpec_eval_6 b hb6 hb7]
    try unfold piece
    try linarith
  rcases le_or_lt b 4096 with hb8 | hb8
  · rw [gSpec_eval_7 b hb7 hb8]
    try unfold piece
    try linarith
  rcases le_or_lt b 5120 with hb9 | hb9
  · rw [gSpec_eval_8 b hb8 hb9]
    try unfold piece
    try linarith
  rcases le_or_lt b 6144 with hb10 | hb10
  · rw [gSpec_eval_9 b hb9 hb10]
    try unfold piece
    try linarith
  rcases le_or_lt b 7168 with hb11 | hb11
  · rw [gSpec_eval_10 b hb10 hb11]
    try unfold piece
    try linarith
  rcases le_or_lt b 8192 with hb12 | hb12
  · rw [gSpec_eval_11 b hb11 hb12]
    try unfold piece
    try linarith
  rcases le_or_lt b 9216 with hb13 | hb13
  · rw [gSpec_eval_12 b hb12 hb13]
    try unfold piece
    try linarith
  rcases le_or_lt b 10240 with hb14 | hb14
  · rw [gSpec_eval_13 b hb13 hb14]
    try unfold piece
    try linarith
  rw [gSpec_eval_14 b hb14]
  try unfold piece
  try linarith

theorem gSpec_mono_r12 (a b : ℚ) (ha1 : 8192 < a) (ha2 : a ≤ 9216) (hab : a ≤ b) :
    gSpec a ≤ gSpec b := by
  rw [gSpec_eval_12 a ha1 ha2]
  rcases le_or_lt b 128 with hb1 | hb1
  · rw [gSpec_eval_0 b hb1]
    try unfold piece
    try linarith
  rcases le_or_lt b 256 with hb2 | hb2
  · rw [gSpec_eval_1 b hb1 hb2]
    try unfold piece
    try linarith
  rcases le_or_lt b 512 with hb3 | hb3
  · rw [gSpec_eval_2 b hb2 hb3]
    try unfold piece
    try linarith
  rcases le_or_lt b 1024 with hb4 | hb4
  · rw [gSpec_eval_3 b hb3 hb4]
    try unfold piece
    try linarith
  rcases le_or_lt b 1536 with hb5 | hb5
  · rw [gSpec_eval_4 b hb4 hb5]
    try unfold piece
    try linarith
  rcases le_or_lt b 2048 with hb6 | hb6
  · rw [gSpec_eval_5 b hb5 hb6]
    try unfold piece
    try linarith
  rcases le_or_lt b 3008 with hb7 | hb7
  · rw [gSpec_eval_6 b hb6 hb7]
    try unfold piece
    try linarith
  rcases le_or_lt b 4096 with hb8 | hb8
  · rw [gSpec_eval_7 b hb7 hb8]
    try unfold piece
    try linarith
  rcases le_or_lt b 5120 with hb9 | hb9
  · rw [gSpec_eval_8 b hb8 hb9]
    try unfold piece
    try linarith
  rcases le_or_lt b 6144 with hb10 | hb10
  · rw [gSpec_eval_9 b hb9 hb10]
    try unfold piece
    try linarith
  rcases le_or_lt b 7168 with hb11 | hb11
  · rw [gSpec_eval_10 b hb10 hb11]
    try unfold piece
    try linarith
  rcases le_or_lt b 8192 with hb12 | hb12
  · rw [gSpec_eval_11 b hb11 hb12]
    try unfold piece
    try linarith
  rcases le_or_lt b 9216 with hb13 | hb13
  · rw [gSpec_eval_12 b hb12 hb13]
    try unfold piece
    try linarith
  rcases le_or_lt b 10240 with hb14 | hb14
  · rw [gSpec_eval_13 b hb13 hb14]
    try unfold piece
    try linarith
  rw [gSpec_eval_14 b hb14]
  try unfold piece
  try linarith

theorem gSpec_mono_r13 (a b : ℚ) (ha1 : 9216 < a) (ha2 : a ≤ 10240) (hab : a ≤ b) :
    gSpec a ≤ gSpec b := by
  rw [gSpec_eval_13 a ha1 ha2]
  rcases le_or_lt b 128 with hb1 | hb1
  · rw [gSpec_eval_0 b hb1]
    try unfold piece
    try linarith
  rcases le_or_lt b 256 with hb2 | hb2
  · rw [gSpec_eval_1 b hb1 hb2]
    try unfold piece
    try linarith
  rcases le_or_lt b 512 with hb3 | hb3
  · rw [gSpec_eval_2 b hb2 hb3]
    try unfold piece
    try linarith
  rcases le_or_lt b 1024 with hb4 | hb4
  · rw [gSpec_eval_3 b hb3 hb4]
    try unfold piece
    try linarith
  rcases le_or_lt b 1536 with hb5 | hb5
  · rw [gSpec_eval_4 b hb4 hb5]
    try unfold piece
    try linarith
  rcases le_or_lt b 2048 with hb6 | hb6
  · rw [gSpec_eval_5 b hb5 hb6]
    try unfold piece
    try linarith
  rcases le_or_lt b 3008 with hb7 | hb7
  · rw [gSpec_eval_6 b hb6 hb7]
    try unfold piece
    try linarith
  rcases le_or_lt b 4096 with hb8 | hb8
  · rw [gSpec_eval_7 b hb7 hb8]
    try unfold piece
    try linarith
  rcases le_or_lt b 5120 with hb9 | hb9
  · rw [gSpec_eval_8 b hb8 hb9]
    try unfold piece
    try linarith
  rcases le_or_lt b 6144 with hb10 | hb10
  · rw [gSpec_eval_9 b hb9 hb10]
    try unfold piece
    try linarith
  rcases le_or_lt b 7168 with hb11 | hb11
  · rw [gSpec_eval_10 b hb10 hb11]
    try unfold piece
    try linarith
  rcases le_or_lt b 8192 with hb12 | hb12
  · rw [gSpec_eval_11 b hb11 hb12]
    try unfold piece
    try linarith
  rcases le_or_lt b 9216 with hb13 | hb13
  · rw [gSpec_eval_12 b hb12 hb13]
    try unfold piece
    try linarith
  rcases le_or_lt b 10240 with hb14 | hb14
  · rw [gSpec_eval_13 b hb13 hb14]
    try unfold piece
    try linarith
  rw [gSpec_eval_14 b hb14]
  try unfold piece
  try linarith

theorem gSpec_mono_r14 (a b : ℚ) (ha1 : 10240 < a) (hab : a ≤ b) :
    gSpec a ≤ gSpec b := by
  rw [gSpec_eval_14 a ha1]
  rcases le_or_lt b 128 with hb1 | hb1
  · rw [gSpec_eval_0 b hb1]
    try unfold piece
    try linarith
  rcases le_or_lt b 256 with hb2 | hb2
  · rw [gSpec_eval_1 b hb1 hb2]
    try unfold piece
    try linarith
  rcases le_or_lt b 512 with hb3 | hb3
  · rw [gSpec_eval_2 b hb2 hb3]
    try unfold piece
    try linarith
  rcases le_or_lt b 1024 with hb4 | hb4
  · rw [gSpec_eval_3 b hb3 hb4]
    try unfold piece
    try linarith
  rcases le_or_lt b 1536 with hb5 | hb5
  · rw [gSpec_eval_4 b hb4 hb5]
    try unfold piece
    try linarith
  rcases le_or_lt b 2048 with hb6 | hb6
  · rw [gSpec_eval_5 b hb5 hb6]
    try unfold piece
    try linarith
  rcases le_or_lt b 3008 with hb7 | hb7
  · rw [gSpec_eval_6 b hb6 hb7]
    try unfold piece
    try linarith
  rcases le_or_lt b 4096 with hb8 | hb8
  · rw [gSpec_eval_7 b hb7 hb8]
    try unfold piece
    try linarith
  rcases le_or_lt b 5120 with hb9 | hb9
  · rw [gSpec_eval_8 b hb8 hb9]
    try unfold piece
    try linarith
  rcases le_or_lt b 6144 with hb10 | hb10
  · rw [gSpec_eval_9 b hb9 hb10]
    try unfold piece
    try linarith
  rcases le_or_lt b 7168 with hb11 | hb11
  · rw [gSpec_eval_10 b hb10 hb11]
    try unfold piece
    try linarith
  rcases le_or_lt b 8192 with hb12 | hb12
  · rw [gSpec_eval_11 b hb11 hb12]
    try unfold piece
    try linarith
  rcases le_or_lt b 9216 with hb13 | hb13
  · rw [gSpec_eval_12 b hb12 hb13]
    try unfold piece
    try linarith
  rcases le_or_lt b 10240 with hb14 | hb14
  · rw [gSpec_eval_13 b hb13 hb14]
    try unfold piece
    try linarith
  rw [gSpec_eval_14 b hb14]
  try unfold piece
  try linarith

theorem gSpec_mono (a b : ℚ) (hab : a ≤ b) : gSpec a ≤ gSpec b := by
  rcases le_or_lt a 128 with ha1 | ha1
  · exact gSpec_mono_r0 a b ha1 hab
  rcases le_or_lt a 256 with ha2 | ha2
  · exact gSpec_mono_r1 a b ha1 ha2 hab
  rcases le_or_lt a 512 with ha3 | ha3
  · exact gSpec_mono_r2 a b ha2 ha3 hab
  rcases le_or_lt a 1024 with ha4 | ha4
  · exact gSpec_mono_r3 a b ha3 ha4 hab
  rcases le_or_lt a 1536 with ha5 | ha5
  · exact gSpec_mono_r4 a b ha4 ha5 hab
  rcases le_or_lt a 2048 with ha6 | ha6
  · exact gSpec_mono_r5 a b ha5 ha6 hab
  rcases le_or_lt a 3008 with ha7 | ha7
  · exact gSpec_mono_r6 a b ha6 ha7 hab
  rcases le_or_lt a 4096 with ha8 | ha8
  · exact gSpec_mono_r7 a b ha7 ha8 hab
  rcases le_or_lt a 5120 with ha9 | ha9
  · exact gSpec_mono_r8 a b ha8 ha9 hab
  rcases le_or_lt a 6144 with ha10 | ha10
  · exact gSpec_mono_r9 a b ha9 ha10 hab
  rcases le_or_lt a 7168 with ha11 | ha11
  · exact gSpec_mono_r10 a b ha10 ha11 hab
  rcases le_or_lt a 8192 with ha12 | ha12
  · exact gSpec_mono_r11 a b ha11 ha12 hab
  rcases le_or_lt a 9216 with ha13 | ha13
  · exact gSpec_mono_r12 a b ha12 ha13 hab
  rcases le_or_lt a 10240 with ha14 | ha14
  · exact gSpec_mono_r13 a b ha13 ha14 hab
  exact gSpec_mono_r14 a b ha14 hab

/-- C2: `getProportionalCpu` returns the table value exactly on a calibration
key, the linear interpolation `cpuLow + (cpuHigh - cpuLow) * (ramMb - ramLow)
/ (ramHigh - ramLow)` strictly between adjacent keys, and clamps to 1/16
(= 0.0625) below 128 and to 5 above 10240; it is total by construction. -/
theorem getProportionalCpu_resolution :
    (∀ p ∈ AWS_LAMBDA_CPU_RATIO, getProportionalCpu p.1 = p.2) ∧
    (∀ pq ∈ AWS_LAMBDA_CPU_RATIO.zip AWS_LAMBDA_CPU_RATIO.tail, ∀ r : ℚ,
      pq.1.1 < r → r < pq.2.1 →
      getProportionalCpu r =
        pq.1.2 + (pq.2.2 - pq.1.2) * ((r - pq.1.1) / (pq.2.1 - pq.1.1))) ∧
    (∀ r : ℚ, r < 128 → getProportionalCpu r = 1/16) ∧
    (∀ r : ℚ, r > 10240 → getProportionalCpu r = 5) := by
  refine ⟨getCpu_table, ?_, fun r h => getCpu_low r (le_of_lt h),
    fun r h => getCpu_high r (le_of_lt h)⟩
  intro pq hpq
  have hz : AWS_LAMBDA_CPU_RATIO.zip AWS_LAMBDA_CPU_RATIO.tail =
      [((128, 1/16), (256, 1/8)), ((256, 1/8), (512, 1/4)), ((512, 1/4), (1024, 1/2)),
       ((1024, 1/2), (1536, 3/4)), ((1536, 3/4), (2048, 1)), ((2048, 1), (3008, 3/2)),
       ((3008, 3/2), (4096, 2)), ((4096, 2), (5120, 5/2)), ((5120, 5/2), (6144, 3)),
       ((6144, 3), (7168, 7/2)), ((7168, 7/2), (8192, 4)), ((8192, 4), (9216, 9/2)),
       ((9216, 9/2), (10240, 5))] := rfl
  rw [hz] at hpq
  fin_cases hpq
  · exact getCpu_between_1
  · exact getCpu_between_2
  · exact getCpu_between_3
  · exact getCpu_between_4
  · exact getCpu_between_5
  · exact getCpu_between_6
  · exact getCpu_between_7
  · exact getCpu_between_8
  · exact getCpu_between_9
  · exact getCpu_between_10
  · exact getCpu_between_11
  · exact getCpu_between_12
  · exact getCpu_between_13

theorem getProportionalCpu_resolution_witness :
    getProportionalCpu 1792 = 7/8 ∧ getProportionalCpu 2048 = 1 ∧
    getProportionalCpu 64 = 1/16 ∧ getProportionalCpu 20000 = 5 := by
  obtain ⟨hexact, hinterp, hlow, hhigh⟩ := getProportionalCpu_resolution
  refine ⟨?_, ?_, ?_, ?_⟩
  · have hmem : ((1536, 3/4), (2048, 1)) ∈ AWS_LAMBDA_CPU_RATIO.zip AWS_LAMBDA_CPU_RATIO.tail :=
      List.Mem.tail _ (List.Mem.tail _ (List.Mem.tail _ (List.Mem.tail _ (List.Mem.head _))))
    have h := hinterp ((1536, 3/4), (2048, 1)) hmem 1792 (by norm_num) (by norm_num)
    rw [h]
    norm_num
  · exact hexact (2048, 1) (by norm_num [ AWS_LAMBDA_CPU_RATIO])
  · exact hlow 64 (by norm_num)
  · exact hhigh 20000 (by norm_num)

/-- C9: `getProportionalCpu` is monotonically non-decreasing. -/
theorem getProportionalCpu_monotone (a b : ℚ) (hab : a ≤ b) :
    getProportionalCpu a ≤ getProportionalCpu b := by
  rw [getCpu_eq_gSpec, getCpu_eq_gSpec]
  exact gSpec_mono a b hab

theorem getProportionalCpu_monotone_witness :
    (1000 : ℚ) ≤ 9000 ∧ getProportionalCpu 1000 ≤ getProportionalCpu 9000 :=
  ⟨by norm_num, getProportionalCpu_monotone 1000 9000 (by norm_num)⟩

/-! ### JSON values and zod parse outcomes

`validateInfrastructureConfig` receives an `unknown` value; we model the
caller-supplied plain data as a JSON-like value tree. JavaScript numbers are
modelled as exact rationals, and a key absent from an object plays the role
of `undefined`. -/

/-- Untyped caller-supplied data (the `unknown` descriptor argument). -/
inductive JsonValue where
  | null
  | bool (b : Bool)
  | num (q : ℚ)
  | str (s : String)
  | arr (elems : List JsonValue)
  | obj (fields : List (String × JsonValue))

/-- zod's `getParsedType` rendering of a value, used in invalid-type messages. -/
def typeName : JsonValue → String
  | .null => "null"
  | .bool _ => "boolean"
  | .num _ => "number"
  | .str _ => "string"
  | .arr _ => "array"
  | .obj _ => "object"

/-- A single zod issue: a path into the descriptor plus a message. -/
structure Issue where
  path : List String
  message : String
  deriving DecidableEq

/-- Outcome of a zod `_parse`: `aborted` models zod's INVALID status (a type
or enum mismatch that stops dependent work), while `done` carries the parsed
value together with the accumulated issues — zod's "dirty" status is exactly
`done` with a non-empty issue list. -/
inductive Parsed (α : Type) where
  | aborted (issues : List Issue)
  | done (issues : List Issue) (value : α)
  deriving DecidableEq

/-- JS property access on a plain object. -/
def getField : List (String × JsonValue) → String → Option JsonValue
  | [], _ => none
  | (k, v) :: rest, key => if k = key then some v else getField rest key

def invalidTypeMsg (expected : String) (v : JsonValue) : String :=
  "Expected " ++ expected ++ ", received " ++ typeName v

/-- `z.number().min(128, ...).max(10240, ...)` — the `ram` field schema. -/
def parseRam (path : List String) (v : JsonValue) : Parsed ℚ :=
  match v with
  | .num q =>
    .done ((if q < 128 then [⟨path, "RAM must be at least 128 MB"⟩] else []) ++
           (if q > 10240 then [⟨path, "RAM cannot exceed 10240 MB"⟩] else [])) q
  | _ => .aborted [⟨path, invalidTypeMsg "number" v⟩]

/-- `z.number().min(1, ...).max(900, ...)` — the `timeout` field schema. -/
def parseTimeout (path : List String) (v : JsonValue) : Parsed ℚ :=
  match v with
  | .num q =>
    .done ((if q < 1 then [⟨path, "Timeout must be at least 1s"⟩] else []) ++
           (if q > 900 then [⟨path, "Timeout cannot exceed 900s"⟩] else [])) q
  | _ => .aborted [⟨path, invalidTypeMsg "number" v⟩]

/-- `z.number()` with no checks — the `cpu` and `visibilityTimeout` schemas. -/
def parseNumber (path : List String) (v : JsonValue) : Parsed ℚ :=
  match v with
  | .num q => .done [] q
  | _ => .aborted [⟨path, invalidTypeMsg "number" v⟩]

/-- `z.number().min(0, 'maxRetries cannot be negative')` — note: no `.int()`
check in the source, so any number ≥ 0 passes. -/
def parseMaxRetries (path : List String) (v : JsonValue) : Parsed ℚ :=
  match v with
  | .num q =>
    .done (if q < 0 then [⟨path, "maxRetries cannot be negative"⟩] else []) q
  | _ => .aborted [⟨path, invalidTypeMsg "number" v⟩]

inductive MachineType where
  | cpu | memory | gpu
  deriving DecidableEq

def machineTypeStr : MachineType → String
  | .cpu => "cpu"
  | .memory => "memory"
  | .gpu => "gpu"

/-- `z.enum(['cpu', 'memory', 'gpu'])`; an invalid value is INVALID in zod. -/
def parseMachineType (path : List String) (v : JsonValue) : Parsed MachineType :=
  match v with
  | .str "cpu" => .done [] .cpu
  | .str "memory" => .done [] .memory
  | .str "gpu" => .done [] .gpu
  | .str s => .aborted
      [⟨path, "Invalid enum value. Expected \x27cpu\x27 | \x27memory\x27 | \x27gpu\x27, received \x27" ++ s ++ "\x27"⟩]
  | _ => .aborted [⟨path, invalidTypeMsg "\x27cpu\x27 | \x27memory\x27 | \x27gpu\x27" v⟩]

inductive QueueType where
  | standard | fifo
  deriving DecidableEq

/-- `z.enum(['standard', 'fifo'])`. -/
def parseQueueType (path : List String) (v : JsonValue) : Parsed QueueType :=
  match v with
  | .str "standard" => .done [] .standard
  | .str "fifo" => .done [] .fifo
  | .str s => .aborted
      [⟨path, "Invalid enum value. Expected \x27standard\x27 | \x27fifo\x27, received \x27" ++ s ++ "\x27"⟩]
  | _ => .aborted [⟨path, invalidTypeMsg "\x27standard\x27 | \x27fifo\x27" v⟩]

inductive RetryStrategy where
  | noRetry | exponential | jitter
  deriving DecidableEq

/-- `z.enum(['none', 'exponential', 'jitter'])`. -/
def parseRetryStrategy (path : List String) (v : JsonValue) : Parsed RetryStrategy :=
  match v with
  | .str "none" => .done [] .noRetry
  | .str "exponential" => .done [] .exponential
  | .str "jitter" => .done [] .jitter
  | .str s => .aborted
      [⟨path, "Invalid enum value. Expected \x27none\x27 | \x27exponential\x27 | \x27jitter\x27, received \x27" ++ s ++ "\x27"⟩]
  | _ => .aborted [⟨path, invalidTypeMsg "\x27none\x27 | \x27exponential\x27 | \x27jitter\x27" v⟩]

/-- `z.string().nullable()` — the `messageGroupId` field schema; `some none`
models JS `null`, `some (some s)` a string. -/
def parseMessageGroupId (path : List String) (v : JsonValue) : Parsed (Option String) :=
  match v with
  | .null => .done [] none
  | .str s => .done [] (some s)
  | _ => .aborted [⟨path, invalidTypeMsg "string" v⟩]

/-- `.optional()` applied to a field schema: an absent key parses to `none`. -/
def parseOptField {α : Type} (fields : List (String × JsonValue)) (key : String)
    (path : List String) (p : List String → JsonValue → Parsed α) : Parsed (Option α) :=
  match getField fields key with
  | none => .done [] none
  | some v =>
    match p (path ++ [key]) v with
    | .aborted issues => .aborted issues
    | .done issues a => .done issues (some a)

/-- zod's `mergeObjectSync`: issues from both field parses accumulate, and the
object is INVALID as soon as any field is INVALID. -/
def pairP {α β : Type} : Parsed α → Parsed β → Parsed (α × β)
  | .done ia va, .done ib vb => .done (ia ++ ib) (va, vb)
  | .done ia _, .aborted ib => .aborted (ia ++ ib)
  | .aborted ia, .done ib _ => .aborted (ia ++ ib)
  | .aborted ia, .aborted ib => .aborted (ia ++ ib)

/-- Parsed form of `handlerBaseSchema.partial()`. -/
structure HandlerConfig where
  ram : Option ℚ
  timeout : Option ℚ
  cpu : Option ℚ
  machineType : Option MachineType
  deriving DecidableEq

/-- Parsed form of `queueSchema.partial()`. -/
structure QueueConfig where
  type : Option QueueType
  visibilityTimeout : Option ℚ
  messageGroupId : Option (Option String)
  maxRetries : Option ℚ
  retryStrategy : Option RetryStrategy
  deriving DecidableEq

/-- Parsed form of the `infrastructureSchema` object. -/
structure InfraConfig where
  handler : Option HandlerConfig
  queue : Option QueueConfig
  deriving DecidableEq

/-- `handlerBaseSchema.partial()` as an object parser (all four fields
optional; unknown keys are stripped, zod's default). -/
def parseHandlerFields (path : List String) (v : JsonValue) : Parsed HandlerConfig :=
  match v with
  | .obj fields =>
    match pairP (pairP (parseOptField fields "ram" path parseRam)
                       (parseOptField fields "timeout" path parseTimeout))
                (pairP (parseOptField fields "cpu" path parseNumber)
                       (parseOptField fields "machineType" path parseMachineType)) with
    | .aborted issues => .aborted issues
    | .done issues ((r, t), (c, m)) => .done issues ⟨r, t, c, m⟩
  | _ => .aborted [⟨path, invalidTypeMsg "object" v⟩]

/-- `queueSchema.partial()` as an object parser. -/
def parseQueueFields (path : List String) (v : JsonValue) : Parsed QueueConfig :=
  match v with
  | .obj fields =>
    match pairP (pairP (parseOptField fields "type" path parseQueueType)
                       (parseOptField fields "visibilityTimeout" path parseNumber))
                (pairP (parseOptField fields "messageGroupId" path parseMessageGroupId)
                       (pairP (parseOptField fields "maxRetries" path parseMaxRetries)
                              (parseOptField fields "retryStrategy" path parseRetryStrategy))) with
    | .aborted issues => .aborted issues
    | .done issues ((ty, vt), (mg, (mr, rs))) => .done issues ⟨ty, vt, mg, mr, rs⟩
  | _ => .aborted [⟨path, invalidTypeMsg "object" v⟩]

/-- The base object of `infrastructureSchema`:
`z.object({ handler: handlerBaseSchema.partial().optional(),
queue: queueSchema.partial().optional() })` — unknown top-level keys are
stripped (zod's default object behaviour, no `.strict()` here). -/
def parseInfraObject (v : JsonValue) : Parsed InfraConfig :=
  match v with
  | .obj fields =>
    match pairP (parseOptField fields "handler" [] parseHandlerFields)
                (parseOptField fields "queue" [] parseQueueFields) with
    | .aborted issues => .aborted issues
    | .done issues (h, q) => .done issues ⟨h, q⟩
  | _ => .aborted [⟨[], invalidTypeMsg "object" v⟩]

/-! ### The superRefine passes -/

/-- String rendering of a number in a template literal. JS renders doubles
in decimal; we render the exact rational, which is faithful for the integral
and short decimal values that reach these messages. -/
def ratStr (q : ℚ) : String := toString q

/-- `expectedCpu.toFixed(2)`: two-decimal rendering, rounding half up. -/
def toFixed2 (q : ℚ) : String :=
  let n : ℤ := Int.floor (q * 100 + 1/2)
  toString (n / 100) ++ "." ++ (if n % 100 < 10 then "0" else "") ++ toString (n % 100)

def propMsg (cpu ram expectedCpu : ℚ) : String :=
  "CPU (" ++ ratStr cpu ++ " vCPU) is not proportional to RAM (" ++ ratStr ram ++
  " MB). Expected approximately " ++ toFixed2 expectedCpu ++ " vCPU"

def crossFieldMsg (visibilityTimeout timeout : ℚ) : String :=
  "Visibility timeout (" ++ ratStr visibilityTimeout ++
  "s) must be greater than handler timeout (" ++ ratStr timeout ++
  "s) to prevent premature message redelivery"

def fifoMsg : String := "messageGroupId is required when queue type is \"fifo\""

/-- JS falsiness of `config.queue?.messageGroupId`: absent, `null`, or `""`. -/
def mgidFalsy : Option (Option String) → Bool
  | none => true
  | some none => true
  | some (some s) => s = ""

/-- First block of the `infrastructureSchema` `superRefine`: CPU/RAM
proportionality (`handler.cpu` and `handler.ram` both present and
`|cpu - expectedCpu| > 0.1`). -/
def propIssues (config : InfraConfig) : List Issue :=
  match config.handler with
  | some h =>
    match h.cpu, h.ram with
    | some cpu, some ram =>
      let expectedCpu := getProportionalCpu ram
      if |cpu - expectedCpu| > 1/10 then
        [⟨["handler", "cpu"], propMsg cpu ram expectedCpu⟩]
      else []
    | _, _ => []
  | none => []

/-- Second block: the cross-field rule — `queue.visibilityTimeout` and
`handler.timeout` both present requires `visibilityTimeout > timeout`. -/
def crossIssues (config : InfraConfig) : List Issue :=
  match config.queue, config.handler with
  | some q, some h =>
    match q.visibilityTimeout, h.timeout with
    | some vt, some t =>
      if vt ≤ t then [⟨["queue", "visibilityTimeout"], crossFieldMsg vt t⟩] else []
    | _, _ => []
  | _, _ => []

/-- Third block: `type === 'fifo'` with a falsy `messageGroupId`. -/
def fifoIssues (config : InfraConfig) : List Issue :=
  match config.queue with
  | some q =>
    if q.type = some .fifo ∧ mgidFalsy q.messageGroupId then
      [⟨["queue", "messageGroupId"], fifoMsg⟩]
    else []
  | none => []

/-- The first `superRefine` of `infrastructureSchema`: its three `if` blocks
in source order. Runs only when the base object parse was not INVALID, and
its issues are appended after the field issues. -/
def infraSuperRefine (config : InfraConfig) : List Issue :=
  propIssues config ++ crossIssues config ++ fifoIssues config

/-- The caller-supplied input schema, reduced to the one capability the
validator uses: the `inputSchema.shape` introspection. `.error e` models a
`shape` access (or `in` query) that throws an exception with message `e`;
`.ok none` models a falsy `shape`; `.ok (some fields)` a shape object whose
keys are `fields`. -/
structure InputSchema where
  shape : Except String (Option (List String))

def noSchemaMsg (mgid : String) : String :=
  "Cannot validate messageGroupId \"" ++ mgid ++ "\" - step has no input schema defined"

def keyPathMsg (mgid : String) : String :=
  "messageGroupId \"" ++ mgid ++
  "\" must be a simple field path. Nested paths and template expressions are not supported"

def notFoundMsg (mgid : String) : String :=
  "messageGroupId \"" ++ mgid ++ "\" does not exist in step\x27s input schema"

def introspectionMsg (mgid : String) (errMsg : String) : String :=
  "Failed to validate messageGroupId \"" ++ mgid ++ "\" against input schema: " ++ errMsg

/-- `messageGroupId.includes('.')` for a single character, as decidable char
containment over the string's characters. -/
def strContainsChar (s : String) (c : Char) : Bool := s.data.contains c

/-- The second `superRefine`, added by `createInfrastructureSchema`:
validates `messageGroupId` against the step's input schema. -/
def messageGroupRefine (inputSchema : Option InputSchema) (config : InfraConfig) : List Issue :=
  match config.queue with
  | none => []
  | some q =>
    match q.messageGroupId with
    | none => []
    | some none => []
    | some (some mgid) =>
      if mgid = "" then []
      else
        match inputSchema with
        | none => [⟨["queue", "messageGroupId"], noSchemaMsg mgid⟩]
        | some schema =>
          if strContainsChar mgid '.' || strContainsChar mgid '[' then
            [⟨["queue", "messageGroupId"], keyPathMsg mgid⟩]
          else
            match schema.shape with
            | .error errMsg => [⟨["queue", "messageGroupId"], introspectionMsg mgid errMsg⟩]
            | .ok none => [⟨["queue", "messageGroupId"], notFoundMsg mgid⟩]
            | .ok (some fields) =>
              if mgid ∈ fields then [] else [⟨["queue", "messageGroupId"], notFoundMsg mgid⟩]

/-- `createInfrastructureSchema(inputSchema).parse`: the base object parse,
then the two refinement passes (each skipped when what precedes it was
INVALID, exactly zod's `ZodEffects` chaining). -/
def createInfrastructureSchemaParse (inputSchema : Option InputSchema)
    (v : JsonValue) : Parsed InfraConfig :=
  match parseInfraObject v with
  | .aborted issues => .aborted issues
  | .done issues config =>
    .done (issues ++ infraSuperRefine config ++ messageGroupRefine inputSchema config) config

/-- One entry of the returned error list. -/
structure InfrastructureValidationError where
  path : String
  message : String
  deriving DecidableEq

/-- The discriminated result type `{success: true} | {success: false, errors}`. -/
inductive InfrastructureValidationResult where
  | success
  | failure (errors : List InfrastructureValidationError)
  deriving DecidableEq

/-- `err.path.length > 0 ? err.path.join('.') : 'infrastructure'`. -/
def joinPath : List String → String
  | [] => "infrastructure"
  | ps => String.intercalate "." ps

def issueToError (i : Issue) : InfrastructureValidationError :=
  ⟨joinPath i.path, i.message⟩

/-- The three-argument `validateInfrastructureConfig` exported next to the
step schemas: builds the schema, parses, and maps a thrown `ZodError`'s
issues to `{path, message}` records. The `stepName` argument is accepted
but never used. -/
def validateInfrastructureConfig (infrastructureConfig : JsonValue) (stepName : String)
    (inputSchema : Option InputSchema) : InfrastructureValidationResult :=
  match createInfrastructureSchemaParse inputSchema infrastructureConfig with
  | .done [] _ => .success
  | .done issues _ => .failure (issues.map issueToError)
  | .aborted issues => .failure (issues.map issueToError)

/-- The two-argument `validateInfrastructureConfig` of the
infrastructure-validator module (no `stepName` parameter); its body is the
same schema construction, parse, and error mapping. -/
def validateInfrastructureConfig' (infrastructureConfig : JsonValue)
    (inputSchema : Option InputSchema) : InfrastructureValidationResult :=
  match createInfrastructureSchemaParse inputSchema infrastructureConfig with
  | .done [] _ => .success
  | .done issues _ => .failure (issues.map issueToError)
  | .aborted issues => .failure (issues.map issueToError)

/-- Errors of a result (`[]` on success). -/
def resultErrors : InfrastructureValidationResult → List InfrastructureValidationError
  | .success => []
  | .failure errors => errors

/-! ### Typed descriptors and their JSON encodings

The typed configurations above are the structurally well-formed descriptors
(§3 of the spec); `encodeInfra` renders one back to the untyped JSON value a
caller would pass, letting the claims quantify over all structurally valid
descriptors. -/

/-- A present field renders as a key; an absent one as no key at all. -/
def optField (key : String) (v : Option JsonValue) : List (String × JsonValue) :=
  match v with
  | none => []
  | some j => [(key, j)]

def queueTypeStr : QueueType → String
  | .standard => "standard"
  | .fifo => "fifo"

def retryStrategyStr : RetryStrategy → String
  | .noRetry => "none"
  | .exponential => "exponential"
  | .jitter => "jitter"

/-- `null` for JS `null`, a string otherwise. -/
def encodeMgid : Option String → JsonValue
  | none => .null
  | some s => .str s

def encodeHandler (h : HandlerConfig) : JsonValue :=
  .obj (optField "ram" (h.ram.map .num) ++
        optField "timeout" (h.timeout.map .num) ++
        optField "cpu" (h.cpu.map .num) ++
        optField "machineType" (h.machineType.map (fun m => .str (machineTypeStr m))))

def encodeQueue (q : QueueConfig) : JsonValue :=
  .obj (optField "type" (q.type.map (fun t => .str (queueTypeStr t))) ++
        optField "visibilityTimeout" (q.visibilityTimeout.map .num) ++
        optField "messageGroupId" (q.messageGroupId.map encodeMgid) ++
        optField "maxRetries" (q.maxRetries.map .num) ++
        optField "retryStrategy" (q.retryStrategy.map (fun r => .str (retryStrategyStr r))))

def encodeInfra (c : InfraConfig) : JsonValue :=
  .obj (optField "handler" (c.handler.map encodeHandler) ++
        optField "queue" (c.queue.map encodeQueue))

/-- The field-level (range) issues the handler object parse produces. -/
def handlerFieldIssues (h : HandlerConfig) : List Issue :=
  (match h.ram with
   | some q =>
     (if q < 128 then [⟨["handler", "ram"], "RAM must be at least 128 MB"⟩] else []) ++
     (if q > 10240 then [⟨["handler", "ram"], "RAM cannot exceed 10240 MB"⟩] else [])
   | none => []) ++
  (match h.timeout with
   | some q =>
     (if q < 1 then [⟨["handler", "timeout"], "Timeout must be at least 1s"⟩] else []) ++
     (if q > 900 then [⟨["handler", "timeout"], "Timeout cannot exceed 900s"⟩] else [])
   | none => [])

/-- The field-level issues the queue object parse produces. -/
def queueFieldIssues (q : QueueConfig) : List Issue :=
  match q.maxRetries with
  | some r => if r < 0 then [⟨["queue", "maxRetries"], "maxRetries cannot be negative"⟩] else []
  | none => []

/-- All field-level issues of the base object parse of a typed descriptor. -/
def infraFieldIssues (c : InfraConfig) : List Issue :=
  (match c.handler with
   | some h => handlerFieldIssues h
   | none => []) ++
  (match c.queue with
   | some q => queueFieldIssues q
   | none => [])

theorem parseHandler_encode (h : HandlerConfig) :
    parseHandlerFields ["handler"] (encodeHandler h) = .done (handlerFieldIssues h) h := by
  obtain ⟨r, t, c, m⟩ := h
  rcases r with _ | r <;> rcases t with _ | t <;> rcases c with _ | c <;>
    rcases m with _ | (_ | _ | _) <;>
    simp [encodeHandler, parseHandlerFields, parseOptField, getField, optField, pairP,
      parseRam, parseTimeout, parseNumber, parseMachineType, machineTypeStr,
      handlerFieldIssues]

theorem parseQueue_encode (q : QueueConfig) :
    parseQueueFields ["queue"] (encodeQueue q) = .done (queueFieldIssues q) q := by
  obtain ⟨ty, vt, mg, mr, rs⟩ := q
  rcases ty with _ | (_ | _) <;> rcases vt with _ | vt <;> rcases mg with _ | (_ | mg) <;>
    rcases mr with _ | mr <;> rcases rs with _ | (_ | _ | _) <;>
    simp [encodeQueue, parseQueueFields, parseOptField, getField, optField, pairP,
      parseQueueType, parseNumber, parseMessageGroupId, parseMaxRetries,
      parseRetryStrategy, queueTypeStr, retryStrategyStr, encodeMgid, queueFieldIssues]

theorem parseInfra_encode (c : InfraConfig) :
    parseInfraObject (encodeInfra c) = .done (infraFieldIssues c) c := by
  obtain ⟨h, q⟩ := c
  rcases h with _ | h <;> rcases q with _ | q <;>
    simp [encodeInfra, parseInfraObject, parseOptField, getField, optField, pairP,
      parseHandler_encode, parseQueue_encode, infraFieldIssues]

/-- The complete issue list a typed descriptor produces: field pass, then
the first refinement, then the message-grouping refinement. -/
def allIssues (s : Option InputSchema) (c : InfraConfig) : List Issue :=
  infraFieldIssues c ++ infraSuperRefine c ++ messageGroupRefine s c

theorem validate_encode (c : InfraConfig) (stepName : String) (s : Option InputSchema) :
    validateInfrastructureConfig (encodeInfra c) stepName s =
      (match allIssues s c with
       | [] => .success
       | issues => .failure (issues.map issueToError)) := by
  have hp := parseInfra_encode c
  rcases hE : allIssues s c with _ | ⟨i, rest⟩ <;>
    · unfold allIssues infraSuperRefine at hE
      simp only [List.append_assoc] at hE
      simp only [validateInfrastructureConfig, createInfrastructureSchemaParse, hp,
        infraSuperRefine, List.append_assoc, hE]
      try simp

theorem resultErrors_validate_encode (c : InfraConfig) (stepName : String)
    (s : Option InputSchema) :
    resultErrors (validateInfrastructureConfig (encodeInfra c) stepName s) =
      (allIssues s c).map issueToError := by
  rw [validate_encode]
  rcases hE : allIssues s c with _ | ⟨i, rest⟩ <;> simp [resultErrors]

/-! ### Where each pass can place issues -/

theorem propIssues_path (c : InfraConfig) :
    ∀ i ∈ propIssues c, i.path = ["handler", "cpu"] := by
  intro i hi
  unfold propIssues at hi
  iterate 10 (all_goals try split at hi)
  all_goals simp_all

theorem crossIssues_path (c : InfraConfig) :
    ∀ i ∈ crossIssues c, i.path = ["queue", "visibilityTimeout"] := by
  intro i hi
  unfold crossIssues at hi
  iterate 10 (all_goals try split at hi)
  all_goals simp_all

theorem fifoIssues_path (c : InfraConfig) :
    ∀ i ∈ fifoIssues c, i.path = ["queue", "messageGroupId"] := by
  intro i hi
  unfold fifoIssues at hi
  iterate 10 (all_goals try split at hi)
  all_goals simp_all

theorem messageGroupRefine_path (s : Option InputSchema) (c : InfraConfig) :
    ∀ i ∈ messageGroupRefine s c, i.path = ["queue", "messageGroupId"] := by
  intro i hi
  unfold messageGroupRefine at hi
  iterate 10 (all_goals try split at hi)
  all_goals simp_all

theorem handlerFieldIssues_path (h : HandlerConfig) :
    ∀ i ∈ handlerFieldIssues h,
      i.path = ["handler", "ram"] ∨ i.path = ["handler", "timeout"] := by
  intro i hi
  unfold handlerFieldIssues at hi
  simp only [List.mem_append] at hi
  rcases hi with hi | hi <;>
    · iterate 10 (all_goals try split at hi)
      all_goals simp only [List.mem_append, List.mem_singleton, List.mem_cons,
        List.not_mem_nil] at hi
      all_goals try rcases hi with hi | hi
      all_goals simp_all

theorem queueFieldIssues_path (q : QueueConfig) :
    ∀ i ∈ queueFieldIssues q, i.path = ["queue", "maxRetries"] := by
  intro i hi
  unfold queueFieldIssues at hi
  iterate 10 (all_goals try split at hi)
  all_goals simp_all

theorem infraFieldIssues_path (c : InfraConfig) :
    ∀ i ∈ infraFieldIssues c,
      i.path = ["handler", "ram"] ∨ i.path = ["handler", "timeout"] ∨
      i.path = ["queue", "maxRetries"] := by
  intro i hi
  unfold infraFieldIssues at hi
  simp only [List.mem_append] at hi
  rcases hi with hi | hi
  · split at hi
    · rcases handlerFieldIssues_path _ i hi with h | h <;> simp [h]
    · simp at hi
  · split at hi
    · simp [queueFieldIssues_path _ i hi]
    · simp at hi

theorem mem_resultErrors_iff (c : InfraConfig) (stepName : String) (s : Option InputSchema)
    (e : InfrastructureValidationError) :
    e ∈ resultErrors (validateInfrastructureConfig (encodeInfra c) stepName s) ↔
      ∃ i ∈ allIssues s c, issueToError i = e := by
  rw [resultErrors_validate_encode]
  simp [List.mem_map]

theorem mem_allIssues_cases (s : Option InputSchema) (c : InfraConfig) (i : Issue)
    (hi : i ∈ allIssues s c) :
    i ∈ infraFieldIssues c ∨ i ∈ propIssues c ∨ i ∈ crossIssues c ∨ i ∈ fifoIssues c ∨
      i ∈ messageGroupRefine s c := by
  unfold allIssues infraSuperRefine at hi
  simp only [List.mem_append] at hi
  tauto

theorem mem_allIssues_of_cross (s : Option InputSchema) (c : InfraConfig) (i : Issue)
    (hi : i ∈ crossIssues c) : i ∈ allIssues s c := by
  unfold allIssues infraSuperRefine
  simp only [List.mem_append]
  tauto

theorem mem_allIssues_of_prop (s : Option InputSchema) (c : InfraConfig) (i : Issue)
    (hi : i ∈ propIssues c) : i ∈ allIssues s c := by
  unfold allIssues infraSuperRefine
  simp only [List.mem_append]
  tauto

theorem mem_allIssues_of_field (s : Option InputSchema) (c : InfraConfig) (i : Issue)
    (hi : i ∈ infraFieldIssues c) : i ∈ allIssues s c := by
  unfold allIssues infraSuperRefine
  simp only [List.mem_append]
  tauto

theorem mem_allIssues_of_mg (s : Option InputSchema) (c : InfraConfig) (i : Issue)
    (hi : i ∈ messageGroupRefine s c) : i ∈ allIssues s c := by
  unfold allIssues infraSuperRefine
  simp only [List.mem_append]
  tauto

theorem mem_crossIssues_iff (c : InfraConfig) (i : Issue) :
    i ∈ crossIssues c ↔
      ∃ q h vt t, c.queue = some q ∧ c.handler = some h ∧
        q.visibilityTimeout = some vt ∧ h.timeout = some t ∧ vt ≤ t ∧
        i = ⟨["queue", "visibilityTimeout"], crossFieldMsg vt t⟩ := by
  obtain ⟨ch, cq⟩ := c
  rcases ch with _ | ⟨r, t, cp, mt⟩ <;> rcases cq with _ | ⟨ty, vt, mg, mr, rs⟩ <;>
    simp [crossIssues]
  rcases vt with _ | vt <;> rcases t with _ | t <;> simp

theorem mem_propIssues_iff (c : InfraConfig) (i : Issue) :
    i ∈ propIssues c ↔
      ∃ h cpu ram, c.handler = some h ∧ h.cpu = some cpu ∧ h.ram = some ram ∧
        |cpu - getProportionalCpu ram| > 1/10 ∧
        i = ⟨["handler", "cpu"], propMsg cpu ram (getProportionalCpu ram)⟩ := by
  obtain ⟨ch, cq⟩ := c
  rcases ch with _ | ⟨r, t, cp, mt⟩ <;> simp [propIssues]
  rcases cp with _ | cp <;> rcases r with _ | r <;> simp

theorem mem_infraFieldIssues_maxRetries_iff (c : InfraConfig) (i : Issue)
    (hp : i.path = ["queue", "maxRetries"]) :
    i ∈ infraFieldIssues c ↔
      ∃ q mr, c.queue = some q ∧ q.maxRetries = some mr ∧ mr < 0 ∧
        i = ⟨["queue", "maxRetries"], "maxRetries cannot be negative"⟩ := by
  obtain ⟨ch, cq⟩ := c
  constructor
  · intro hi
    unfold infraFieldIssues at hi
    simp only [List.mem_append] at hi
    rcases hi with hi | hi
    · exfalso
      split at hi
      · rcases handlerFieldIssues_path _ i hi with h | h <;> simp [h] at hp
      · simp at hi
    · rcases cq with _ | ⟨ty, vt, mg, mr, rs⟩
      · simp at hi
      · simp only at hi
        unfold queueFieldIssues at hi
        rcases mr with _ | mr <;> simp at hi
        rcases hi with ⟨hlt, hi⟩
        exact ⟨_, mr, rfl, rfl, hlt, by simp [hi]⟩
  · rintro ⟨q, mr, hq, hmr, hlt, hi⟩
    replace hq : cq = some q := hq
    subst hq
    unfold infraFieldIssues queueFieldIssues
    simp [List.mem_append, hmr, hlt, hi]

theorem issueToError_path (i : Issue) : (issueToError i).path = joinPath i.path := rfl

theorem exists_crossPath_iff (c : InfraConfig) (stepName : String) (s : Option InputSchema) :
    (∃ e ∈ resultErrors (validateInfrastructureConfig (encodeInfra c) stepName s),
        e.path = "queue.visibilityTimeout") ↔
      ∃ q h vt t, c.queue = some q ∧ c.handler = some h ∧
        q.visibilityTimeout = some vt ∧ h.timeout = some t ∧ vt ≤ t := by
  constructor
  · rintro ⟨e, he, hpath⟩
    rw [mem_resultErrors_iff] at he
    obtain ⟨i, hi, hie⟩ := he
    have hjp : joinPath i.path = "queue.visibilityTimeout" := by
      rw [← issueToError_path, hie, hpath]
    rcases mem_allIssues_cases s c i hi with hf | hp | hc | hff | hmg
    · exfalso
      rcases infraFieldIssues_path c i hf with h | h | h <;> rw [h] at hjp <;>
        exact absurd hjp (by decide)
    · exact absurd (by rw [propIssues_path c i hp] at hjp; exact hjp) (by decide)
    · obtain ⟨q, h, vt, t, hq, hh, hvt, ht, hle, _⟩ := (mem_crossIssues_iff c i).1 hc
      exact ⟨q, h, vt, t, hq, hh, hvt, ht, hle⟩
    · exact absurd (by rw [fifoIssues_path c i hff] at hjp; exact hjp) (by decide)
    · exact absurd (by rw [messageGroupRefine_path s c i hmg] at hjp; exact hjp) (by decide)
  · rintro ⟨q, h, vt, t, hq, hh, hvt, ht, hle⟩
    refine ⟨⟨"queue.visibilityTimeout", crossFieldMsg vt t⟩, ?_, rfl⟩
    rw [mem_resultErrors_iff]
    refine ⟨⟨["queue", "visibilityTimeout"], crossFieldMsg vt t⟩, ?_, rfl⟩
    apply mem_allIssues_of_cross
    rw [mem_crossIssues_iff]
    exact ⟨q, h, vt, t, hq, hh, hvt, ht, hle, rfl⟩

theorem exists_propPath_iff (c : InfraConfig) (stepName : String) (s : Option InputSchema) :
    (∃ e ∈ resultErrors (validateInfrastructureConfig (encodeInfra c) stepName s),
        e.path = "handler.cpu") ↔
      ∃ h cpu ram, c.handler = some h ∧ h.cpu = some cpu ∧ h.ram = some ram ∧
        |cpu - getProportionalCpu ram| > 1/10 := by
  constructor
  · rintro ⟨e, he, hpath⟩
    rw [mem_resultErrors_iff] at he
    obtain ⟨i, hi, hie⟩ := he
    have hjp : joinPath i.path = "handler.cpu" := by
      rw [← issueToError_path, hie, hpath]
    rcases mem_allIssues_cases s c i hi with hf | hp | hc | hff | hmg
    · exfalso
      rcases infraFieldIssues_path c i hf with h | h | h <;> rw [h] at hjp <;>
        exact absurd hjp (by decide)
    · obtain ⟨h, cpu, ram, hh, hcpu, hram, hgt, _⟩ := (mem_propIssues_iff c i).1 hp
      exact ⟨h, cpu, ram, hh, hcpu, hram, hgt⟩
    · exact absurd (by rw [crossIssues_path c i hc] at hjp; exact hjp) (by decide)
    · exact absurd (by rw [fifoIssues_path c i hff] at hjp; exact hjp) (by decide)
    · exact absurd (by rw [messageGroupRefine_path s c i hmg] at hjp; exact hjp) (by decide)
  · rintro ⟨h, cpu, ram, hh, hcpu, hram, hgt⟩
    refine ⟨⟨"handler.cpu", propMsg cpu ram (getProportionalCpu ram)⟩, ?_, rfl⟩
    rw [mem_resultErrors_iff]
    refine ⟨⟨["handler", "cpu"], propMsg cpu ram (getProportionalCpu ram)⟩, ?_, rfl⟩
    apply mem_allIssues_of_prop
    rw [mem_propIssues_iff]
    exact ⟨h, cpu, ram, hh, hcpu, hram, hgt, rfl⟩

theorem exists_maxRetriesPath_iff (c : InfraConfig) (stepName : String) (s : Option InputSchema) :
    (∃ e ∈ resultErrors (validateInfrastructureConfig (encodeInfra c) stepName s),
        e.path = "queue.maxRetries") ↔
      ∃ q mr, c.queue = some q ∧ q.maxRetries = some mr ∧ mr < 0 := by
  constructor
  · rintro ⟨e, he, hpath⟩
    rw [mem_resultErrors_iff] at he
    obtain ⟨i, hi, hie⟩ := he
    have hjp : joinPath i.path = "queue.maxRetries" := by
      rw [← issueToError_path, hie, hpath]
    rcases mem_allIssues_cases s c i hi with hf | hp | hc | hff | hmg
    · have hpq : i.path = ["queue", "maxRetries"] := by
        rcases infraFieldIssues_path c i hf with h | h | h <;> rw [h] at hjp ⊢ <;>
          first
            | rfl
            | exact absurd hjp (by decide)
      obtain ⟨q, mr, hq, hmr, hlt, _⟩ := (mem_infraFieldIssues_maxRetries_iff c i hpq).1 hf
      exact ⟨q, mr, hq, hmr, hlt⟩
    · exact absurd (by rw [propIssues_path c i hp] at hjp; exact hjp) (by decide)
    · exact absurd (by rw [crossIssues_path c i hc] at hjp; exact hjp) (by decide)
    · exact absurd (by rw [fifoIssues_path c i hff] at hjp; exact hjp) (by decide)
    · exact absurd (by rw [messageGroupRefine_path s c i hmg] at hjp; exact hjp) (by decide)
  · rintro ⟨q, mr, hq, hmr, hlt⟩
    refine ⟨⟨"queue.maxRetries", "maxRetries cannot be negative"⟩, ?_, rfl⟩
    rw [mem_resultErrors_iff]
    refine ⟨⟨["queue", "maxRetries"], "maxRetries cannot be negative"⟩, ?_, rfl⟩
    apply mem_allIssues_of_field
    rw [mem_infraFieldIssues_maxRetries_iff c _ rfl]
    exact ⟨q, mr, hq, hmr, hlt, rfl⟩

/-- C3: for a structurally valid descriptor with both `queue.visibilityTimeout`
and `handler.timeout` present, validation reports a `queue.visibilityTimeout`
violation iff `visibilityTimeout ≤ timeout` (equality violates, strict
greater passes), the violation names both observed values, and when either
field is absent no such violation is reported. -/
theorem validateInfrastructureConfig_crossField (c : InfraConfig) (stepName : String)
    (s : Option InputSchema) :
    (∀ q h vt t, c.queue = some q → c.handler = some h →
      q.visibilityTimeout = some vt → h.timeout = some t →
      (((∃ e ∈ resultErrors (validateInfrastructureConfig (encodeInfra c) stepName s),
          e.path = "queue.visibilityTimeout") ↔ vt ≤ t) ∧
       (vt ≤ t →
        (⟨"queue.visibilityTimeout", crossFieldMsg vt t⟩ : InfrastructureValidationError) ∈
          resultErrors (validateInfrastructureConfig (encodeInfra c) stepName s)))) ∧
    ((c.queue = none ∨ c.handler = none ∨
      (∀ q, c.queue = some q → q.visibilityTimeout = none) ∨
      (∀ h, c.handler = some h → h.timeout = none)) →
      ¬∃ e ∈ resultErrors (validateInfrastructureConfig (encodeInfra c) stepName s),
        e.path = "queue.visibilityTimeout") := by
  constructor
  · intro q h vt t hq hh hvt ht
    constructor
    · rw [exists_crossPath_iff]
      constructor
      · rintro ⟨q', h', vt', t', hq', hh', hvt', ht', hle⟩
        rw [hq, Option.some.injEq] at hq'
        rw [hh, Option.some.injEq] at hh'
        subst hq'
        subst hh'
        rw [hvt, Option.some.injEq] at hvt'
        rw [ht, Option.some.injEq] at ht'
        subst hvt'
        subst ht'
        exact hle
      · intro hle
        exact ⟨q, h, vt, t, hq, hh, hvt, ht, hle⟩
    · intro hle
      rw [mem_resultErrors_iff]
      exact ⟨⟨["queue", "visibilityTimeout"], crossFieldMsg vt t⟩,
        mem_allIssues_of_cross _ _ _
          ((mem_crossIssues_iff c _).2 ⟨q, h, vt, t, hq, hh, hvt, ht, hle, rfl⟩), rfl⟩
  · intro habs hex
    rw [exists_crossPath_iff] at hex
    obtain ⟨q, h, vt, t, hq, hh, hvt, ht, _⟩ := hex
    rcases habs with ha | ha | ha | ha
    · rw [ha] at hq
      exact Option.noConfusion hq
    · rw [ha] at hh
      exact Option.noConfusion hh
    · rw [ha q hq] at hvt
      exact Option.noConfusion hvt
    · rw [ha h hh] at ht
      exact Option.noConfusion ht

/-- C5: for a structurally valid descriptor with both `handler.cpu` and
`handler.ram` present, validation reports a proportionality violation iff
`|cpu - getProportionalCpu ram| > 0.1`, the violation carries both the
observed and the expected value, and when either field is absent no such
violation is reported. -/
theorem validateInfrastructureConfig_proportionality (c : InfraConfig) (stepName : String)
    (s : Option InputSchema) :
    (∀ h cpu ram, c.handler = some h → h.cpu = some cpu → h.ram = some ram →
      (((∃ e ∈ resultErrors (validateInfrastructureConfig (encodeInfra c) stepName s),
          e.path = "handler.cpu") ↔ |cpu - getProportionalCpu ram| > 1/10) ∧
       (|cpu - getProportionalCpu ram| > 1/10 →
        (⟨"handler.cpu", propMsg cpu ram (getProportionalCpu ram)⟩ :
            InfrastructureValidationError) ∈
          resultErrors (validateInfrastructureConfig (encodeInfra c) stepName s)))) ∧
    ((c.handler = none ∨ (∀ h, c.handler = some h → h.cpu = none) ∨
      (∀ h, c.handler = some h → h.ram = none)) →
      ¬∃ e ∈ resultErrors (validateInfrastructureConfig (encodeInfra c) stepName s),
        e.path = "handler.cpu") := by
  constructor
  · intro h cpu ram hh hcpu hram
    constructor
    · rw [exists_propPath_iff]
      constructor
      · rintro ⟨h', cpu', ram', hh', hcpu', hram', hgt⟩
        rw [hh, Option.some.injEq] at hh'
        subst hh'
        rw [hcpu, Option.some.injEq] at hcpu'
        rw [hram, Option.some.injEq] at hram'
        subst hcpu'
        subst hram'
        exact hgt
      · intro hgt
        exact ⟨h, cpu, ram, hh, hcpu, hram, hgt⟩
    · intro hgt
      rw [mem_resultErrors_iff]
      exact ⟨⟨["handler", "cpu"], propMsg cpu ram (getProportionalCpu ram)⟩,
        mem_allIssues_of_prop _ _ _
          ((mem_propIssues_iff c _).2 ⟨h, cpu, ram, hh, hcpu, hram, hgt, rfl⟩), rfl⟩
  · intro habs hex
    rw [exists_propPath_iff] at hex
    obtain ⟨h, cpu, ram, hh, hcpu, hram, _⟩ := hex
    rcases habs with ha | ha | ha
    · rw [ha] at hh
      exact Option.noConfusion hh
    · rw [ha h hh] at hcpu
      exact Option.noConfusion hcpu
    · rw [ha h hh] at hram
      exact Option.noConfusion hram

theorem validateInfrastructureConfig_crossField_witness :
    ((30 : ℚ) ≤ 30) ∧
    (⟨"queue.visibilityTimeout", crossFieldMsg 30 30⟩ : InfrastructureValidationError) ∈
      resultErrors (validateInfrastructureConfig
        (encodeInfra ⟨some ⟨some 2048, some 30, none, some .cpu⟩,
          some ⟨some .standard, some 30, none, some 3, some .noRetry⟩⟩) "step" none) :=
  ⟨le_refl 30,
   ((validateInfrastructureConfig_crossField
      ⟨some ⟨some 2048, some 30, none, some .cpu⟩,
       some ⟨some .standard, some 30, none, some 3, some .noRetry⟩⟩ "step" none).1
      _ _ 30 30 rfl rfl rfl rfl).2 (le_refl 30)⟩

theorem validateInfrastructureConfig_proportionality_witness :
    |(3 : ℚ) - getProportionalCpu 2048| > 1/10 ∧
    (⟨"handler.cpu", propMsg 3 2048 (getProportionalCpu 2048)⟩ :
        InfrastructureValidationError) ∈
      resultErrors (validateInfrastructureConfig
        (encodeInfra ⟨some ⟨some 2048, some 30, some 3, some .cpu⟩, none⟩) "step" none) := by
  have hgt : |(3 : ℚ) - getProportionalCpu 2048| > 1/10 := by
    norm_num [getProportionalCpu, lookupRatio, AWS_LAMBDA_CPU_RATIO]
  exact ⟨hgt,
    ((validateInfrastructureConfig_proportionality
        ⟨some ⟨some 2048, some 30, some 3, some .cpu⟩, none⟩ "step" none).1
      _ 3 2048 rfl rfl rfl).2 hgt⟩

/-- C1: the passes are independent and every pass's violations are returned
in one batch: for every structurally valid descriptor the error list is
exactly the field-pass issues followed by the first-refinement issues
followed by the message-grouping issues; in particular a descriptor with
`handler.ram` out of range and `visibilityTimeout ≤ timeout` simultaneously
reports both the range violation and the cross-field violation. -/
theorem validateInfrastructureConfig_accumulates :
    (∀ (c : InfraConfig) (stepName : String) (s : Option InputSchema),
      resultErrors (validateInfrastructureConfig (encodeInfra c) stepName s) =
        (infraFieldIssues c ++ infraSuperRefine c ++ messageGroupRefine s c).map issueToError) ∧
    ((⟨"handler.ram", "RAM cannot exceed 10240 MB"⟩ : InfrastructureValidationError) ∈
      resultErrors (validateInfrastructureConfig
        (encodeInfra ⟨some ⟨some 20000, some 30, none, some .cpu⟩,
          some ⟨some .standard, some 30, none, some 3, some .noRetry⟩⟩) "step" none) ∧
     (⟨"queue.visibilityTimeout", crossFieldMsg 30 30⟩ : InfrastructureValidationError) ∈
      resultErrors (validateInfrastructureConfig
        (encodeInfra ⟨some ⟨some 20000, some 30, none, some .cpu⟩,
          some ⟨some .standard, some 30, none, some 3, some .noRetry⟩⟩) "step" none)) := by
  refine ⟨fun c stepName s => resultErrors_validate_encode c stepName s, ?_, ?_⟩ <;>
    · rw [resultErrors_validate_encode]
      norm_num [allIssues, infraFieldIssues, handlerFieldIssues, queueFieldIssues,
        infraSuperRefine, propIssues, crossIssues, fifoIssues, messageGroupRefine,
        mgidFalsy, issueToError, joinPath]
      first
        | (left; decide)
        | (right; left; decide)

/-- C4 counterexample: a present-but-empty `messageGroupId` with no input
schema. The claim's first-match order (absent ⇒ skip; else schema absent ⇒
schema-unavailable violation) demands a violation here, but the code's
falsiness guard also skips the empty string and reports nothing. -/
theorem messageGroupRefine_emptyString_counterexample :
    messageGroupRefine none ⟨none, some ⟨none, none, some (some ""), none, none⟩⟩ = [] := rfl

/-- C4 (amended): the message-grouping-key validator emits at most one
violation, first match wins: (1) `messageGroupId` absent, `null`, or empty ⇒
none; (2) no input schema ⇒ schema-unavailable; (3) a `.` or `[` in the key ⇒
key-path violation; (4) otherwise, for a schema whose shape query returns,
a key-not-found violation exactly when the shape lacks the field. -/
theorem messageGroupRefine_first_match (s : Option InputSchema) (c : InfraConfig) :
    (messageGroupRefine s c).length ≤ 1 ∧
    (c.queue = none → messageGroupRefine s c = []) ∧
    (∀ q, c.queue = some q → mgidFalsy q.messageGroupId = true →
      messageGroupRefine s c = []) ∧
    (∀ q m, c.queue = some q → q.messageGroupId = some (some m) → m ≠ "" → s = none →
      messageGroupRefine s c = [⟨["queue", "messageGroupId"], noSchemaMsg m⟩]) ∧
    (∀ q m schema, c.queue = some q → q.messageGroupId = some (some m) → m ≠ "" →
      s = some schema → (strContainsChar m '.' || strContainsChar m '[') = true →
      messageGroupRefine s c = [⟨["queue", "messageGroupId"], keyPathMsg m⟩]) ∧
    (∀ q m schema fields, c.queue = some q → q.messageGroupId = some (some m) → m ≠ "" →
      s = some schema → (strContainsChar m '.' || strContainsChar m '[') = false →
      schema.shape = .ok (some fields) →
      messageGroupRefine s c =
        if m ∈ fields then [] else [⟨["queue", "messageGroupId"], notFoundMsg m⟩]) := by
  obtain ⟨ch, cq⟩ := c
  refine ⟨?_, ?_, ?_, ?_, ?_, ?_⟩
  · unfold messageGroupRefine
    iterate 10 (all_goals try split)
    all_goals simp
  · intro hq
    replace hq : cq = none := hq
    subst hq
    rfl
  · intro q hq hf
    replace hq : cq = some q := hq
    subst hq
    unfold messageGroupRefine
    rcases hmg : q.messageGroupId with _ | (_ | m)
    · simp [hmg]
    · simp [hmg]
    · rw [hmg] at hf
      unfold mgidFalsy at hf
      simp only [decide_eq_true_eq] at hf
      simp [hmg, hf]
  · intro q m hq hmg hne hs
    replace hq : cq = some q := hq
    subst hq
    subst hs
    simp [messageGroupRefine, hmg, hne]
  · intro q m schema hq hmg hne hs hdot
    replace hq : cq = some q := hq
    subst hq
    subst hs
    simp [messageGroupRefine, hmg, hne, hdot]
  · intro q m schema fields hq hmg hne hs hdot hshape
    replace hq : cq = some q := hq
    subst hq
    subst hs
    simp only [Bool.or_eq_false_iff] at hdot
    simp [messageGroupRefine, hmg, hne, hdot.1, hdot.2, hshape]

theorem messageGroupRefine_first_match_witness :
    messageGroupRefine (some ⟨.ok (some ["traceId"])⟩)
        ⟨none, some ⟨some .fifo, none, some (some "userId"), none, none⟩⟩ =
      [⟨["queue", "messageGroupId"], notFoundMsg "userId"⟩] := by
  have h := (messageGroupRefine_first_match (some ⟨.ok (some ["traceId"])⟩)
      ⟨none, some ⟨some .fifo, none, some (some "userId"), none, none⟩⟩).2.2.2.2.2
      _ "userId" ⟨.ok (some ["traceId"])⟩ ["traceId"] rfl rfl (by decide) rfl (by decide) rfl
  rw [h]
  decide

/-- C10: the two exported implementations are behaviourally equivalent — the
`stepName` argument has no effect on the outcome. -/
theorem validateInfrastructureConfig_equiv (infrastructureConfig : JsonValue)
    (stepName : String) (inputSchema : Option InputSchema) :
    validateInfrastructureConfig infrastructureConfig stepName inputSchema =
      validateInfrastructureConfig' infrastructureConfig inputSchema := rfl

/-- C7 counterexample: a descriptor whose only top-level field is the unknown
key `foo` passes validation — zod's default object behaviour strips unknown
keys — where the claim says it must fail. -/
theorem validateInfrastructureConfig_unknownField_counterexample :
    validateInfrastructureConfig (.obj [("foo", .num 1)]) "step" none = .success := rfl

/-- C7 (amended): a non-object descriptor is reported as a violation at path
`infrastructure` (never a crash), while extraneous unknown top-level fields
are stripped and accepted: any object without `handler` and `queue` keys
validates successfully. -/
theorem validateInfrastructureConfig_structural :
    (∀ (v : JsonValue) (stepName : String) (s : Option InputSchema),
      (∀ fields, v ≠ .obj fields) →
      validateInfrastructureConfig v stepName s =
        .failure [⟨"infrastructure", invalidTypeMsg "object" v⟩]) ∧
    (∀ (fields : List (String × JsonValue)) (stepName : String) (s : Option InputSchema),
      getField fields "handler" = none → getField fields "queue" = none →
      validateInfrastructureConfig (.obj fields) stepName s = .success) := by
  constructor
  · intro v stepName s hv
    cases v with
    | obj fields => exact absurd rfl (hv fields)
    | null => rfl
    | bool b => rfl
    | num q => rfl
    | str s => rfl
    | arr elems => rfl
  · intro fields stepName s hh hq
    simp [validateInfrastructureConfig, createInfrastructureSchemaParse, parseInfraObject,
      parseOptField, hh, hq, pairP, infraSuperRefine, propIssues, crossIssues, fifoIssues,
      messageGroupRefine]

theorem validateInfrastructureConfig_structural_witness :
    (∀ fields, (JsonValue.str "hello") ≠ .obj fields) ∧
    validateInfrastructureConfig (.str "hello") "step" none =
      .failure [⟨"infrastructure", invalidTypeMsg "object" (.str "hello")⟩] ∧
    getField [("foo", .num 1)] "handler" = none ∧
    getField [("foo", .num 1)] "queue" = none ∧
    validateInfrastructureConfig (.obj [("foo", .num 1)]) "step" none = .success :=
  ⟨fun _ => JsonValue.noConfusion,
   validateInfrastructureConfig_structural.1 (.str "hello") "step" none
     (fun _ => JsonValue.noConfusion),
   rfl, rfl,
   validateInfrastructureConfig_structural.2 [("foo", .num 1)] "step" none rfl rfl⟩

/-- C8 counterexample: `maxRetries: 3.5` — a non-integer — passes validation
(the schema is `z.number().min(0)` with no integer check), where the claim
says a non-integer value is a violation. -/
theorem validateInfrastructureConfig_maxRetries_counterexample :
    validateInfrastructureConfig
      (encodeInfra ⟨none, some ⟨some .standard, some 60, none, some (7/2), some .noRetry⟩⟩)
      "step" none = .success := by
  rw [validate_encode]
  norm_num [allIssues, infraFieldIssues, queueFieldIssues, infraSuperRefine, propIssues,
    crossIssues, fifoIssues, messageGroupRefine, mgidFalsy]
  rfl

/-- C8 (amended): a present `maxRetries` is reported as a violation iff it is
negative — any number ≥ 0, integer or not, is accepted. -/
theorem validateInfrastructureConfig_maxRetries (c : InfraConfig) (stepName : String)
    (s : Option InputSchema) :
    (∃ e ∈ resultErrors (validateInfrastructureConfig (encodeInfra c) stepName s),
        e.path = "queue.maxRetries") ↔
      ∃ q mr, c.queue = some q ∧ q.maxRetries = some mr ∧ mr < 0 :=
  exists_maxRetriesPath_iff c stepName s

/-- C6: the validator is total — every outcome is a structured result — and a
schema introspection that raises is caught and converted into a violation
carrying the underlying error's description. -/
theorem validateInfrastructureConfig_neverThrows :
    (∀ (v : JsonValue) (stepName : String) (s : Option InputSchema),
      validateInfrastructureConfig v stepName s = .success ∨
      ∃ errs, validateInfrastructureConfig v stepName s = .failure errs) ∧
    (∀ (c : InfraConfig) (q : QueueConfig) (m errMsg stepName : String),
      c.queue = some q → q.messageGroupId = some (some m) → m ≠ "" →
      strContainsChar m '.' = false → strContainsChar m '[' = false →
      (⟨"queue.messageGroupId", introspectionMsg m errMsg⟩ : InfrastructureValidationError) ∈
        resultErrors (validateInfrastructureConfig (encodeInfra c) stepName
          (some ⟨.error errMsg⟩))) := by
  constructor
  · intro v stepName s
    rcases hr : validateInfrastructureConfig v stepName s with _ | errs
    · exact .inl rfl
    · exact .inr ⟨errs, rfl⟩
  · intro c q m errMsg stepName hq hmg hne hdot hbr
    rw [mem_resultErrors_iff]
    refine ⟨⟨["queue", "messageGroupId"], introspectionMsg m errMsg⟩, ?_, rfl⟩
    apply mem_allIssues_of_mg
    obtain ⟨ch, cq⟩ := c
    replace hq : cq = some q := hq
    subst hq
    simp [messageGroupRefine, hmg, hne, hdot, hbr]

theorem validateInfrastructureConfig_neverThrows_witness :
    (validateInfrastructureConfig (.num 5) "step" none = .success ∨
      ∃ errs, validateInfrastructureConfig (.num 5) "step" none = .failure errs) ∧
    (⟨"queue.messageGroupId", introspectionMsg "traceId" "boom"⟩ :
        InfrastructureValidationError) ∈
      resultErrors (validateInfrastructureConfig
        (encodeInfra ⟨none, some ⟨some .fifo, none, some (some "traceId"), none, none⟩⟩)
        "step" (some ⟨.error "boom"⟩)) :=
  ⟨validateInfrastructureConfig_neverThrows.1 (.num 5) "step" none,
   validateInfrastructureConfig_neverThrows.2 _ _ "traceId" "boom" "step" rfl rfl
     (by decide) (by decide) (by decide)⟩
